import Mathlib

/-!
Verification of the questionnaire-automation system's core components:
the answer-consistency memory (`DigitalPersonMemoryManager`), the
completion detector (`IntelligentCompletionManager`), the continuous
answering loop (`ContinuousAnsweringEnhancer`), the unified resource
cleanup manager and the window monitoring system.

Conventions of the embedding:
* JavaScript strings are Lean `String`s; `String.prototype.includes`,
  `toLowerCase`, `trim` and the regex replacements used by the source are
  modelled character-exactly (ASCII case mapping, ECMAScript `\s` / `\w`
  classes).
* JavaScript numbers are modelled as exact rationals `ℚ`.
* `crypto.createHash('md5')` is modelled by a full MD5 implementation
  over `Nat` (bytes via UTF-8 encoding), so fingerprints are computed
  exactly as in the source.
* External effects (page oracle, HTTP services, timers) are supplied as
  explicit inputs/environments; thrown exceptions are modelled with
  `Except` where the control flow depends on them.
-/

namespace QSys

/-! ### JavaScript string primitives -/

/-- The characters matched by ECMAScript `\s` (whitespace class). -/
def jsSpaceChars : List Char :=
  [' ', '\t', '\n', '\r', '\x0b', '\x0c', ' ', ' ',
   ' ', ' ', ' ', ' ', ' ', ' ', ' ',
   ' ', ' ', ' ', ' ', ' ', ' ', ' ',
   ' ', '　', '﻿']

def isJsSpace (c : Char) : Bool := jsSpaceChars.contains c

/-- ECMAScript `\w`: `[A-Za-z0-9_]`. -/
def isWordChar (c : Char) : Bool := c.isAlpha || c.isDigit || c == '_'

/-- `String.prototype.toLowerCase` (ASCII range, which is all the source's
keyword tables need; characters outside the ASCII letters are unchanged). -/
def toLowerStr (s : String) : String := String.mk (s.data.map Char.toLower)

/-- Is `pat` a contiguous sublist of `s`? -/
def subListB (pat : List Char) : List Char → Bool
  | [] => pat.isEmpty
  | c :: cs => pat.isPrefixOf (c :: cs) || subListB pat cs

/-- `String.prototype.includes`. -/
def strIncludes (s pat : String) : Bool := subListB pat.data s.data

/-! ### MD5 over `Nat` (for `crypto.createHash('md5')`) -/

def u32 (x : Nat) : Nat := x % 4294967296

def add32 (a b : Nat) : Nat := u32 (a + b)

/-- Bitwise complement on 32-bit values (valid for `x < 2^32`). -/
def not32 (x : Nat) : Nat := 4294967295 - x

/-- Left-rotation of a 32-bit value by `s` (for `0 < s < 32`, `x < 2^32`). -/
def rotl32 (x s : Nat) : Nat := u32 (x * 2 ^ s) + x / 2 ^ (32 - s)

def md5F (x y z : Nat) : Nat := (x &&& y) ||| (not32 x &&& z)
def md5G (x y z : Nat) : Nat := (x &&& z) ||| (y &&& not32 z)
def md5H (x y z : Nat) : Nat := (x ^^^ y) ^^^ z
def md5I (x y z : Nat) : Nat := y ^^^ (x ||| not32 z)

/-- The 64 MD5 sine-derived constants. -/
def md5K : List Nat :=
  [3614090360, 3905402710, 606105819, 3250441966, 4118548399, 1200080426,
   2821735955, 4249261313, 1770035416, 2336552879, 4294925233, 2304563134,
   1804603682, 4254626195, 2792965006, 1236535329, 4129170786, 3225465664,
   643717713, 3921069994, 3593408605, 38016083, 3634488961, 3889429448,
   568446438, 3275163606, 4107603335, 1163531501, 2850285829, 4243563512,
   1735328473, 2368359562, 4294588738, 2272392833, 1839030562, 4259657740,
   2763975236, 1272893353, 4139469664, 3200236656, 681279174, 3936430074,
   3572445317, 76029189, 3654602809, 3873151461, 530742520, 3299628645,
   4096336452, 1126891415, 2878612391, 4237533241, 1700485571, 2399980690,
   4293915773, 2240044497, 1873313359, 4264355552, 2734768916, 1309151649,
   4149444226, 3174756917, 718787259, 3951481745]

/-- The 64 MD5 per-round left-rotation amounts. -/
def md5Shift : List Nat :=
  [7, 12, 17, 22, 7, 12, 17, 22, 7, 12, 17, 22, 7, 12, 17, 22,
   5, 9, 14, 20, 5, 9, 14, 20, 5, 9, 14, 20, 5, 9, 14, 20,
   4, 11, 16, 23, 4, 11, 16, 23, 4, 11, 16, 23, 4, 11, 16, 23,
   6, 10, 15, 21, 6, 10, 15, 21, 6, 10, 15, 21, 6, 10, 15, 21]

structure MD5State where
  a : Nat
  b : Nat
  c : Nat
  d : Nat
  deriving Repr, DecidableEq

/-- `k` bytes of `n`, little-endian. -/
def leBytes : Nat → Nat → List Nat
  | 0, _ => []
  | k + 1, n => (n % 256) :: leBytes k (n / 256)

/-- A 32-bit word from (up to) four little-endian bytes. -/
def leWord (bs : List Nat) : Nat := bs.foldr (fun x acc => x + 256 * acc) 0

/-- The sixteen 32-bit message words of one 64-byte chunk. -/
def chunkWords (c : List Nat) : List Nat :=
  (List.range 16).map (fun i => leWord ((c.drop (4 * i)).take 4))

def md5Round (m : List Nat) (st : MD5State) (i : Nat) : MD5State :=
  let fg : Nat × Nat :=
    if i < 16 then (md5F st.b st.c st.d, i)
    else if i < 32 then (md5G st.b st.c st.d, (5 * i + 1) % 16)
    else if i < 48 then (md5H st.b st.c st.d, (3 * i + 5) % 16)
    else (md5I st.b st.c st.d, (7 * i) % 16)
  let tmp := add32 (add32 (add32 fg.1 st.a) (md5K.getD i 0)) (m.getD fg.2 0)
  { a := st.d, d := st.c, c := st.b,
    b := add32 st.b (rotl32 tmp (md5Shift.getD i 0)) }

def md5ProcessChunk (st : MD5State) (c : List Nat) : MD5State :=
  let m := chunkWords c
  let r := (List.range 64).foldl (md5Round m) st
  { a := add32 st.a r.a, b := add32 st.b r.b,
    c := add32 st.c r.c, d := add32 st.d r.d }

/-- Split a byte list into 64-byte chunks (fuel-driven, structurally
recursive so that the kernel can evaluate it; `fuel ≥ length` suffices). -/
def splitChunks : Nat → List Nat → List (List Nat)
  | 0, _ => []
  | _, [] => []
  | fuel + 1, b :: bs => (b :: bs).take 64 :: splitChunks fuel ((b :: bs).drop 64)

def md5Chunks (st : MD5State) (msg : List Nat) : MD5State :=
  (splitChunks msg.length msg).foldl md5ProcessChunk st

/-- MD5 padding: `0x80`, zeros to 56 mod 64, then the 64-bit bit length. -/
def md5Pad (msg : List Nat) : List Nat :=
  let len := msg.length
  let z := (119 - len % 64) % 64
  msg ++ 128 :: List.replicate z 0 ++ leBytes 8 ((len * 8) % 2 ^ 64)

def hexDigit (n : Nat) : Char :=
  if n < 10 then Char.ofNat (48 + n) else Char.ofNat (87 + n)

def byteHex (b : Nat) : List Char := [hexDigit (b / 16), hexDigit (b % 16)]

/-- Lowercase hex digest of an MD5 hash of a byte list. -/
def md5Hex (msg : List Nat) : String :=
  let st := md5Chunks ⟨0x67452301, 0xefcdab89, 0x98badcfe, 0x10325476⟩
    (md5Pad msg)
  let digest := leBytes 4 st.a ++ leBytes 4 st.b ++ leBytes 4 st.c ++
    leBytes 4 st.d
  String.mk (digest.foldr (fun b acc => byteHex b ++ acc) [])

/-- UTF-8 encoding of one character (as Node's `hash.update(string)` uses). -/
def utf8Char (c : Char) : List Nat :=
  let n := c.toNat
  if n < 128 then [n]
  else if n < 2048 then [192 + n / 64, 128 + n % 64]
  else if n < 65536 then
    [224 + n / 4096, 128 + (n / 64) % 64, 128 + n % 64]
  else
    [240 + n / 262144, 128 + (n / 4096) % 64, 128 + (n / 64) % 64,
     128 + n % 64]

def toBytesUTF8 (s : String) : List Nat :=
  s.data.foldr (fun c acc => utf8Char c ++ acc) []

/-- `createHash('md5').update(s).digest('hex')`. -/
def md5HexOfString (s : String) : String := md5Hex (toBytesUTF8 s)

/-! ### IntelligentCompletionManager
(src/questionnaire-system/src/completion/IntelligentCompletionManager.ts) -/

/-- The fixed completion phrases (`completionSignals` field). -/
def completionSignals : List String :=
  ["问卷已完成", "调查结束", "调研已结束", "感谢您的参与",
   "survey completed", "questionnaire finished", "survey ended",
   "thank you for participating", "submission successful"]

/-- The fixed completion-URL substrings (`completionUrlPatterns` field). -/
def completionUrlPatterns : List String :=
  ["thank-you", "completion", "success-page", "finished",
   "submitted", "complete", "end-survey"]

/-- The fixed technical-error keywords (`errorKeywords` field). -/
def errorKeywords : List String :=
  ["系统崩溃", "server error", "服务器故障", "网站维护中",
   "system error", "maintenance", "service unavailable"]

/-- The fixed completion-marker element selectors
(`completionSelectors` local of `detectStrictCompletionSignals`). -/
def completionSelectors : List String :=
  ["text=\"问卷已完成\"", "text=\"survey completed\"",
   "text=\"questionnaire finished\"", "text=\"thank you\"",
   "text=\"submission successful\""]

/-- The page signals the detector reads from the browser: current URL,
body text, and the number of elements matching each selector. -/
structure PageSignals where
  currentUrl : String
  bodyText : String
  elementCount : String → Nat

/-- `detectStrictCompletionSignals(currentUrl, bodyText)`: URL pattern
check, then body-text phrase check, then completion-element check.
`bodyText` is the already-lowercased page text (as at the call site). -/
def detectStrictCompletionSignals (sig : PageSignals) (bodyText : String) :
    Bool :=
  let urlLower := toLowerStr sig.currentUrl
  completionUrlPatterns.any (fun pattern => strIncludes urlLower pattern) ||
  completionSignals.any (fun signal =>
    strIncludes bodyText (toLowerStr signal)) ||
  completionSelectors.any (fun selector => sig.elementCount selector > 0)

/-- `detectErrorIndicators(bodyText)`: only the fixed technical-error
keywords are checked. -/
def detectErrorIndicators (bodyText : String) : Bool :=
  errorKeywords.any (fun keyword => strIncludes bodyText (toLowerStr keyword))

/-- `detectQuestionnaireContinuation`: always `true`. -/
def detectQuestionnaireContinuation (_bodyText : String) : Bool := true

/-- The non-time fields of `CompletionDetectionResult`. -/
structure CompletionDetectionResult where
  isSuccess : Bool
  successType : String
  shouldCleanup : Bool
  details : String
  deriving Repr, DecidableEq

/-- `intelligentCompletionDetection`: the verdict computed from the page
signals (timestamps and the diagnostic history record are omitted; the
history never influences the verdict). -/
def intelligentCompletionDetection (sig : PageSignals) :
    CompletionDetectionResult :=
  let bodyTextLower := toLowerStr sig.bodyText
  let hasStrictCompletion := detectStrictCompletionSignals sig bodyTextLower
  let _hasErrorIndicators := detectErrorIndicators bodyTextLower
  let _stillInQuestionnaire := detectQuestionnaireContinuation bodyTextLower
  if hasStrictCompletion then
    { isSuccess := true, successType := "complete", shouldCleanup := true,
      details := "检测到明确的问卷结束信号" }
  else
    { isSuccess := false, successType := "continue_answering",
      shouldCleanup := false,
      details := "继续智能作答流程，确保所有题目都能完成" }

/-! ### DigitalPersonMemoryManager
(src/questionnaire-system/src/memory/DigitalPersonMemoryManager.ts) -/

/-- `text.replace(/\s+/g, ' ')`: every maximal whitespace run becomes one
space.  The boolean argument records whether the previous character was
whitespace. -/
def collapseWs : Bool → List Char → List Char
  | _, [] => []
  | prev, c :: cs =>
    if isJsSpace c then
      if prev then collapseWs true cs else ' ' :: collapseWs true cs
    else c :: collapseWs false cs

/-- `String.prototype.trim`. -/
def trimWs (l : List Char) : List Char :=
  ((l.dropWhile isJsSpace).reverse.dropWhile isJsSpace).reverse

/-- `normalizeQuestionText`: collapse whitespace and trim, then delete every
character matching `[^\w\s]`, then lowercase.  (Note the order: punctuation
is removed *after* whitespace collapsing, exactly as in the source.) -/
def normalizeQuestionText (text : String) : String :=
  let step1 := trimWs (collapseWs false text.data)
  let step2 := step1.filter (fun c => isWordChar c || isJsSpace c)
  String.mk (step2.map Char.toLower)

/-- `generateQuestionId(questionText, pageUrl)`:
`md5(pageUrl + '|' + normalizedText)` truncated to 16 hex characters. -/
def generateQuestionId (questionText pageUrl : String) : String :=
  (md5HexOfString (pageUrl ++ "|" ++ normalizeQuestionText questionText)).take 16

/-- `generateQuestionnaireId(url)`: md5 truncated to 12 hex characters. -/
def generateQuestionnaireId (url : String) : String :=
  (md5HexOfString url).take 12

/-- JS `String.prototype.split(' ')` (single-space separator). -/
def splitOnSpace : List Char → List (List Char)
  | [] => [[]]
  | c :: cs =>
    match splitOnSpace cs with
    | [] => [[]]
    | w :: ws => if c = ' ' then [] :: w :: ws else (c :: w) :: ws

/-- The words of a string, as JS `s.split(' ')`. -/
def splitWords (s : String) : List String :=
  (splitOnSpace s.data).map String.mk

/-- `QuestionFeatures` (keyword fields hold the JS `Set` contents, i.e.
deduplicated in first-insertion order). -/
structure QuestionFeatures where
  normalizedText : String
  normalizedOptions : List String
  keywords : List String
  optionKeywords : List String
  textLength : Nat
  optionCount : Nat
  deriving Repr, DecidableEq

/-- `extractQuestionFeatures(questionText, options)`. -/
def extractQuestionFeatures (questionText : String) (options : List String) :
    QuestionFeatures :=
  let normalizedText := normalizeQuestionText questionText
  let normalizedOptions := options.map normalizeQuestionText
  let keywords := ((splitWords normalizedText).filter
    (fun word => word.length > 2)).dedup
  let optionKeywords := ((normalizedOptions.map (fun opt =>
    (splitWords opt).filter (fun word => word.length > 2))).flatten).dedup
  { normalizedText := normalizedText,
    normalizedOptions := normalizedOptions,
    keywords := keywords,
    optionKeywords := optionKeywords,
    textLength := normalizedText.length,
    optionCount := options.length }

/-- The Levenshtein-distance recurrence of `calculateStringSimilarity`'s
DP matrix (`m[i][j] = min(m[i-1][j]+1, m[i][j-1]+1, m[i-1][j-1]+cost)`),
written with explicit fuel so that it is structurally recursive.  With
`fuel ≥ |xs| + |ys|` the fuel never runs out (each step consumes one fuel
and at least one list element), and at fuel 0 at most one list is
non-empty, where the returned `xs.length + ys.length` is the exact
distance. -/
def levF : Nat → List Char → List Char → Nat
  | 0, xs, ys => xs.length + ys.length
  | _ + 1, [], ys => ys.length
  | _ + 1, x :: xs, [] => (x :: xs).length
  | fuel + 1, x :: xs, y :: ys =>
    min (levF fuel xs (y :: ys) + 1)
      (min (levF fuel (x :: xs) ys + 1)
        (levF fuel xs ys + if x = y then 0 else 1))

/-- Edit distance between two character lists. -/
def levDist (xs ys : List Char) : Nat := levF (xs.length + ys.length) xs ys

/-- `calculateStringSimilarity(str1, str2)`:
`(maxLen − editDistance) / maxLen`, with the source's early returns for
empty strings. -/
def calculateStringSimilarity (str1 str2 : String) : ℚ :=
  let len1 := str1.length
  let len2 := str2.length
  if len1 = 0 then (if len2 = 0 then 1 else 0)
  else if len2 = 0 then 0
  else
    let maxLen := max len1 len2
    ((maxLen : ℚ) - (levDist str1.data str2.data : ℚ)) / (maxLen : ℚ)

/-- `calculateQuestionSimilarity(features1, features2)`: the weighted sum
`0.4·textSim + 0.3·keywordSim + 0.2·optionSim + 0.1·optionCountSim`
(JS number literals modelled as exact rationals). -/
def calculateQuestionSimilarity (f1 f2 : QuestionFeatures) : ℚ :=
  let textSimilarity :=
    calculateStringSimilarity f1.normalizedText f2.normalizedText
  let commonKeywords := (f1.keywords.filter (fun k => k ∈ f2.keywords)).length
  let totalKeywords := (f1.keywords ++ f2.keywords).dedup.length
  let keywordSimilarity : ℚ :=
    if totalKeywords > 0 then (commonKeywords : ℚ) / (totalKeywords : ℚ) else 0
  let options1 := f1.normalizedOptions.dedup
  let options2 := f2.normalizedOptions.dedup
  let commonOptions := (options1.filter (fun o => o ∈ options2)).length
  let totalOptions :=
    (f1.normalizedOptions ++ f2.normalizedOptions).dedup.length
  let optionSimilarity : ℚ :=
    if totalOptions > 0 then (commonOptions : ℚ) / (totalOptions : ℚ) else 0
  let optionCountSimilarity : ℚ :=
    if f1.optionCount = f2.optionCount then 1 else 1/2
  textSimilarity * (4/10) + keywordSimilarity * (3/10) +
    optionSimilarity * (2/10) + optionCountSimilarity * (1/10)

/-- `QuestionRecord` (the `answer: any` payload is modelled as a string). -/
structure QuestionRecord where
  questionId : String
  questionText : String
  questionType : String
  options : List String
  answer : String
  answerText : String
  pageUrl : String
  timestamp : Nat
  attempts : Nat
  confidence : ℚ
  deriving Repr, DecidableEq

/-- `QuestionnaireMemory`; `questions` is the insertion-ordered object. -/
structure QuestionnaireMemory where
  questionnaireId : String
  digitalPersonId : String
  startTime : Nat
  questions : List (String × QuestionRecord)
  questionOrder : List String
  currentPosition : Nat
  totalQuestions : Nat
  completedQuestions : Nat
  deriving Repr, DecidableEq

/-- The freshly constructed memory of the manager's constructor. -/
def freshMemory (questionnaireId digitalPersonId : String) (now : Nat) :
    QuestionnaireMemory :=
  { questionnaireId := questionnaireId, digitalPersonId := digitalPersonId,
    startTime := now, questions := [], questionOrder := [],
    currentPosition := 0, totalQuestions := 0, completedQuestions := 0 }

def memKeys (m : QuestionnaireMemory) : List String := m.questions.map Prod.fst

/-- JS object update `questions[id] = record` for an existing key. -/
def updateEntry (l : List (String × QuestionRecord)) (id : String)
    (r : QuestionRecord) : List (String × QuestionRecord) :=
  l.map (fun p => if p.1 = id then (id, r) else p)

/-- `findSimilarQuestion(questionText, options, similarityThreshold)`:
linear scan over `Object.values(memory.questions)` keeping the best match
strictly above both the threshold and the current best. -/
def findSimilarQuestion (mem : QuestionnaireMemory) (questionText : String)
    (options : List String) (similarityThreshold : ℚ) :
    Option QuestionRecord :=
  let currentFeatures := extractQuestionFeatures questionText options
  let scan := mem.questions.foldl
    (fun (best : Option QuestionRecord × ℚ) entry =>
      let questionRecord := entry.2
      let storedFeatures := extractQuestionFeatures
        questionRecord.questionText questionRecord.options
      let similarity :=
        calculateQuestionSimilarity currentFeatures storedFeatures
      if similarity > similarityThreshold ∧ similarity > best.2 then
        (some questionRecord, similarity)
      else best)
    (none, 0)
  scan.1

/-- `ConsistentAnswerSuggestion`. -/
structure ConsistentAnswerSuggestion where
  suggestedAnswer : String
  suggestedAnswerText : String
  referenceQuestionId : String
  referenceQuestionText : String
  similarityReason : String
  confidence : ℚ
  deriving Repr, DecidableEq

/-- `getConsistentAnswerSuggestion(questionText, options)` (threshold
defaulted to 0.8 at the `findSimilarQuestion` call). -/
def getConsistentAnswerSuggestion (mem : QuestionnaireMemory)
    (questionText : String) (options : List String) :
    Option ConsistentAnswerSuggestion :=
  match findSimilarQuestion mem questionText options (8/10) with
  | some similarQuestion =>
    let questionIndex :=
      (mem.questionOrder.indexOf similarQuestion.questionId : Nat)
    some { suggestedAnswer := similarQuestion.answer,
           suggestedAnswerText := similarQuestion.answerText,
           referenceQuestionId := similarQuestion.questionId,
           referenceQuestionText := similarQuestion.questionText,
           similarityReason :=
             "与第" ++ toString (questionIndex + 1) ++ "题相似",
           confidence := similarQuestion.confidence }
  | none => none

/-- `recordQuestionAnswer(...)`: returns the fingerprint together with the
updated memory.  A first-seen fingerprint is appended (to the object and to
`questionOrder`) and both totals grow; a repeated fingerprint overwrites the
stored record in place. -/
def recordQuestionAnswer (mem : QuestionnaireMemory) (questionText : String)
    (questionType : String) (options : List String) (answer : String)
    (answerText : String) (pageUrl : String) (attempts : Nat)
    (confidence : ℚ) (now : Nat) : String × QuestionnaireMemory :=
  let questionId := generateQuestionId questionText pageUrl
  let questionRecord : QuestionRecord :=
    { questionId := questionId, questionText := questionText,
      questionType := questionType, options := options, answer := answer,
      answerText := answerText, pageUrl := pageUrl, timestamp := now,
      attempts := attempts, confidence := confidence }
  if questionId ∈ memKeys mem then
    (questionId, { mem with
      questions := updateEntry mem.questions questionId questionRecord })
  else
    let questions' := mem.questions ++ [(questionId, questionRecord)]
    (questionId, { mem with
      questions := questions',
      questionOrder := mem.questionOrder ++ [questionId],
      totalQuestions := questions'.length,
      completedQuestions := mem.completedQuestions + 1 })

/-- `ProgressInfo` (time fields are derived from the `now` argument). -/
structure ProgressInfo where
  currentPosition : Nat
  totalQuestions : Nat
  completedQuestions : Nat
  completionRate : ℚ
  elapsedTime : Nat
  digitalPersonId : String
  questionnaireId : String

/-- `getProgressInfo()`. -/
def getProgressInfo (mem : QuestionnaireMemory) (now : Nat) : ProgressInfo :=
  { currentPosition := mem.currentPosition,
    totalQuestions := mem.totalQuestions,
    completedQuestions := mem.completedQuestions,
    completionRate :=
      if mem.totalQuestions > 0 then
        (mem.completedQuestions : ℚ) / (mem.totalQuestions : ℚ) * 100
      else 0,
    elapsedTime := now - mem.startTime,
    digitalPersonId := mem.digitalPersonId,
    questionnaireId := mem.questionnaireId }

/-! ### Exception structure of the similarity lookups

`MemoryManager.findSimilarMemory` wraps its whole body in `try … catch`
and returns `null` on any error; `DigitalPersonMemoryManager`'s
`findSimilarQuestion` / `getConsistentAnswerSuggestion` have no handler.
To reason about this difference the similarity primitive is abstracted as
a possibly-throwing function (in the source a `TypeError` is reachable,
e.g. from records with non-string fields injected by the unvalidated
`importMemory`). -/

/-- `findSimilarQuestion` with a possibly-throwing similarity primitive:
the source has no `try`/`catch` here, so an error propagates. -/
def findSimilarQuestionE
    (simE : QuestionFeatures → QuestionFeatures → Except String ℚ)
    (mem : QuestionnaireMemory) (questionText : String)
    (options : List String) (similarityThreshold : ℚ) :
    Except String (Option QuestionRecord) := do
  let currentFeatures := extractQuestionFeatures questionText options
  let scan ← mem.questions.foldlM
    (fun (best : Option QuestionRecord × ℚ) entry => do
      let questionRecord := entry.2
      let storedFeatures := extractQuestionFeatures
        questionRecord.questionText questionRecord.options
      let similarity ← simE currentFeatures storedFeatures
      if similarity > similarityThreshold ∧ similarity > best.2 then
        pure (some questionRecord, similarity)
      else pure best)
    (none, 0)
  pure scan.1

/-- `getConsistentAnswerSuggestion` with the same abstraction: again no
handler in the source, so an error from the lookup propagates. -/
def getConsistentAnswerSuggestionE
    (simE : QuestionFeatures → QuestionFeatures → Except String ℚ)
    (mem : QuestionnaireMemory) (questionText : String)
    (options : List String) :
    Except String (Option ConsistentAnswerSuggestion) := do
  match ← findSimilarQuestionE simE mem questionText options (8/10) with
  | some similarQuestion =>
    let questionIndex :=
      (mem.questionOrder.indexOf similarQuestion.questionId : Nat)
    let s : ConsistentAnswerSuggestion :=
      { suggestedAnswer := similarQuestion.answer,
        suggestedAnswerText := similarQuestion.answerText,
        referenceQuestionId := similarQuestion.questionId,
        referenceQuestionText := similarQuestion.questionText,
        similarityReason :=
          "与第" ++ toString (questionIndex + 1) ++ "题相似",
        confidence := similarQuestion.confidence }
    pure (some s)
  | none => pure none

/-! ### MemoryManager (src/questionnaire-system/src/memory/MemoryManager.ts) -/

/-- The fields of `MemoryRecord` that `findSimilarMemory` reads. -/
structure MemoryRecord where
  id : String
  digitalPersonId : String
  questionnaireId : String
  questionHash : String
  questionText : String
  answer : String
  timestamp : Nat

/-- `calculateTextSimilarity(text1, text2)`: Jaccard similarity of the
whitespace-separated word sets. -/
def calculateTextSimilarity (text1 text2 : String) : ℚ :=
  let words1 := ((splitOnSpace text1.data).map String.mk).dedup
  let words2 := ((splitOnSpace text2.data).map String.mk).dedup
  let inter := (words1.filter (fun word => word ∈ words2)).length
  let union := (words1 ++ words2).dedup.length
  (inter : ℚ) / (union : ℚ)

/-- `trim` + `toLowerCase` as used by `findSimilarMemory`. -/
def normalizeLowerTrim (s : String) : String :=
  String.mk (trimWs s.data |>.map Char.toLower)

/-- The body of `findSimilarMemory` (first record of the same digital
person whose similarity exceeds `0.8`), with the similarity primitive
abstracted as possibly-throwing. -/
def findSimilarMemoryBody (simTE : String → String → Except String ℚ)
    (cache : List MemoryRecord) (digitalPersonId questionText : String) :
    Except String (Option MemoryRecord) := do
  let normalizedQuestion := normalizeLowerTrim questionText
  let found ← cache.foldlM
    (fun (acc : Option MemoryRecord) memory => do
      match acc with
      | some _ => pure acc
      | none =>
        if memory.digitalPersonId = digitalPersonId then
          let similarity ← simTE normalizedQuestion
            (normalizeLowerTrim memory.questionText)
          if similarity > 8/10 then pure (some memory) else pure none
        else pure none)
    none
  pure found

/-- `findSimilarMemory`: the body above wrapped in the source's
`try { … } catch { return null; }`. -/
def findSimilarMemory (simTE : String → String → Except String ℚ)
    (cache : List MemoryRecord) (digitalPersonId questionText : String) :
    Except String (Option MemoryRecord) :=
  match findSimilarMemoryBody simTE cache digitalPersonId questionText with
  | Except.ok r => Except.ok r
  | Except.error _ => Except.ok none

/-! ### ContinuousAnsweringEnhancer
(src/questionnaire-system/src/answering/ContinuousAnsweringEnhancer.ts)

One round of `executeContinuousAnswering` interacts with the environment:
the page-analysis/extract call (whose failures are caught internally and
replaced by a fallback value), the completion detector's page signals, the
answering `act` call (its own failures are caught; it reports how many
questions were answered) and the navigation `act` call (failures are
caught and reported as `success:false`).  A round is therefore described
by the following input; `throwsErr` models an exception escaping to the
round's own `catch` block. -/

inductive RoundInput where
  | throwsErr
  | normal (sig : PageSignals) (hasQuestions hasUnAnsweredQuestions : Bool)
      (answeredCount : Nat) (navSuccess : Bool) (pageChanged : Bool)

/-- The record returned by `executeContinuousAnswering`. -/
structure ContinuousAnsweringOutcome where
  totalPagesProcessed : Nat
  totalQuestionsAnswered : Nat
  finalStatus : String
  completionReason : String
  deriving Repr, DecidableEq

/-- The post-loop reason string `处理了{pages}页，回答了{questions}个问题`. -/
def progressReason (pages questions : Nat) : String :=
  "处理了" ++ toString pages ++ "页，回答了" ++ toString questions ++
    "个问题"

/-- The value returned when the `for` loop ends (break or exhaustion). -/
def finishOutcome (pages questions : Nat) : ContinuousAnsweringOutcome :=
  { totalPagesProcessed := pages, totalQuestionsAnswered := questions,
    finalStatus := if pages > 0 then "partial_completed" else "failed",
    completionReason := progressReason pages questions }

/-- `maxContinuousFailures` (fixed in the source, no setter). -/
def maxContinuousFailures : Nat := 8

/-- The loop of `executeContinuousAnswering`, structurally recursive on the
remaining round budget; `attempt` is the 1-based round counter. -/
def contGo (env : Nat → RoundInput) :
    Nat → Nat → Nat → Nat → Nat → ContinuousAnsweringOutcome
  | 0, _attempt, pages, questions, _fails => finishOutcome pages questions
  | remaining + 1, attempt, pages, questions, fails =>
    match env attempt with
    | .throwsErr =>
      if fails + 1 ≥ maxContinuousFailures then finishOutcome pages questions
      else contGo env remaining (attempt + 1) pages questions (fails + 1)
    | .normal sig hasQ hasUA answered nav _pc =>
      let completionResult := intelligentCompletionDetection sig
      if completionResult.isSuccess && completionResult.shouldCleanup then
        { totalPagesProcessed := pages, totalQuestionsAnswered := questions,
          finalStatus := "completed",
          completionReason := completionResult.details }
      else
        let questions' :=
          if hasQ && hasUA then questions + answered else questions
        if !nav then
          if fails + 1 ≥ maxContinuousFailures then
            finishOutcome pages questions'
          else contGo env remaining (attempt + 1) pages questions' (fails + 1)
        else contGo env remaining (attempt + 1) (pages + 1) questions' 0

/-- `executeContinuousAnswering` for a given environment and round budget
(`maxContinuousAttempts`, default 200). -/
def executeContinuousAnswering (env : Nat → RoundInput)
    (maxContinuousAttempts : Nat) : ContinuousAnsweringOutcome :=
  contGo env maxContinuousAttempts 1 0 0 0

/-- The number of loop rounds the same run executes (same recursion
structure as `contGo`). -/
def contRoundsGo (env : Nat → RoundInput) : Nat → Nat → Nat → Nat
  | 0, _attempt, _fails => 0
  | remaining + 1, attempt, fails =>
    match env attempt with
    | .throwsErr =>
      if fails + 1 ≥ maxContinuousFailures then 1
      else 1 + contRoundsGo env remaining (attempt + 1) (fails + 1)
    | .normal sig _hasQ _hasUA _answered nav _pc =>
      let completionResult := intelligentCompletionDetection sig
      if completionResult.isSuccess && completionResult.shouldCleanup then 1
      else if !nav then
        if fails + 1 ≥ maxContinuousFailures then 1
        else 1 + contRoundsGo env remaining (attempt + 1) (fails + 1)
      else 1 + contRoundsGo env remaining (attempt + 1) 0

def contRounds (env : Nat → RoundInput) (maxContinuousAttempts : Nat) : Nat :=
  contRoundsGo env maxContinuousAttempts 1 0

/-! ### UnifiedResourceCleanupManager (six-phase resource cleanup)

State-changing external calls are recorded in a trace; the environment
`env : ExtCall → Bool` says which throwing-capable calls succeed.  Calls
that cannot throw in the source (`clearInterval`, `pause()`, and the
memory methods, which catch internally) are not failure-modelled.  Every
phase catches its own errors, so the manager's outer `catch`/fallback
branch is unreachable and the returned report always has
`success := true`. -/

inductive ExtCall where
  | clearTimer
  | pauseEngine
  | pageUrl
  | contextClose
  | saveMemoryToDisk
  | cleanupMemoryCall
  | adsCleanupBrowser
  | proxyRelease
  | clearAdditional
  deriving Repr, DecidableEq

/-- A Playwright context handle: the URLs of its open pages. -/
structure ContextHandle where
  pages : List String
  deriving Repr, DecidableEq

structure StagehandHandle where
  context : Option ContextHandle
  deriving Repr, DecidableEq

/-- `SessionResourceData`: opaque handles are modelled as `Option Unit`
(present / already-cleared sentinel `undefined`). -/
structure SessionResourceData where
  sessionId : String
  profileId : Option String
  proxyInfo : Option Unit
  stagehand : Option StagehandHandle
  superEngine : Option Unit
  browserInfo : Option Unit
  adsPowerManager : Option Unit
  proxyManager : Option Unit
  memoryManager : Option Unit
  digitalPersonMemoryManager : Option Unit
  monitorInterval : Option Unit
  monitorStopFlag : Bool
  additionalResources : Option Unit
  deriving Repr, DecidableEq

structure CleanupResult where
  success : Bool
  phasesCompleted : Nat
  errors : List String
  deriving Repr, DecidableEq

/-- Phase 1: clear the monitor timer (setting the stop flag) and pause the
super engine.  The timer *field* is not cleared here (only in phase 6). -/
def phase1StopMonitoring (sd : SessionResourceData) :
    SessionResourceData × List ExtCall :=
  let p := if sd.monitorInterval.isSome then
      ({ sd with monitorStopFlag := true }, [ExtCall.clearTimer])
    else (sd, [])
  if sd.superEngine.isSome then (p.1, p.2 ++ [ExtCall.pauseEngine]) else p

/-- Phase 2: close the Stagehand context unless its first page looks like
an externally provisioned (AdsPower) page, then clear the references.  A
failing `url()` call is caught by the inner `catch`. -/
def phase2CleanupStagehand (env : ExtCall → Bool) (sd : SessionResourceData) :
    SessionResourceData × List ExtCall :=
  let t : List ExtCall :=
    match sd.stagehand with
    | some sh =>
      match sh.context with
      | some ctx =>
        match ctx.pages with
        | [] => []
        | firstPageUrl :: _ =>
          if env ExtCall.pageUrl then
            if ¬ (strIncludes firstPageUrl "chrome://" = true) ∧
               ¬ (strIncludes firstPageUrl "about:" = true) then
              [ExtCall.pageUrl]
            else [ExtCall.pageUrl, ExtCall.contextClose]
          else [ExtCall.pageUrl]
      | none => []
    | none => []
  let sd2 := if sd.stagehand.isSome then { sd with stagehand := none } else sd
  let sd3 := if sd.superEngine.isSome then { sd2 with superEngine := none }
    else sd2
  (sd3, t)

/-- Phase 3: flush and clear the memory managers. -/
def phase3CleanupMemory (sd : SessionResourceData) :
    SessionResourceData × List ExtCall :=
  let sd2 := if sd.memoryManager.isSome then { sd with memoryManager := none }
    else sd
  if sd.digitalPersonMemoryManager.isSome then
    ({ sd2 with digitalPersonMemoryManager := none },
      [ExtCall.saveMemoryToDisk, ExtCall.cleanupMemoryCall])
  else (sd2, [])

/-- Phase 4: tear down the AdsPower browser.  The manager/profile
references are *not* cleared, only `browserInfo` is. -/
def phase4CleanupAdsPower (sd : SessionResourceData) :
    SessionResourceData × List ExtCall :=
  let t := if sd.adsPowerManager.isSome ∧ sd.profileId.isSome then
      [ExtCall.adsCleanupBrowser]
    else []
  (if sd.browserInfo.isSome then { sd with browserInfo := none } else sd, t)

/-- Phase 5: release the proxy.  The proxy-manager reference is *not*
cleared, only `proxyInfo` is. -/
def phase5CleanupProxy (sd : SessionResourceData) :
    SessionResourceData × List ExtCall :=
  let t := if sd.proxyManager.isSome ∧ sd.sessionId ≠ "" then
      [ExtCall.proxyRelease]
    else []
  (if sd.proxyInfo.isSome then { sd with proxyInfo := none } else sd, t)

/-- Phase 6: clear the timer field and the auxiliary resource registry,
and set the stop flag. -/
def phase6CleanupThreads (sd : SessionResourceData) :
    SessionResourceData × List ExtCall :=
  let p := if sd.monitorInterval.isSome then
      ({ sd with monitorInterval := none }, [ExtCall.clearTimer])
    else (sd, [])
  let q := if sd.additionalResources.isSome then
      ({ p.1 with additionalResources := none }, p.2 ++ [ExtCall.clearAdditional])
    else p
  ({ q.1 with monitorStopFlag := true }, q.2)

/-- `executeComprehensiveCleanup(sessionData, reason)`: the six phases in
order; each phase records a per-phase result and never rethrows, so the
report is `success:true` with no accumulated errors and all six phase
entries. -/
def executeComprehensiveCleanup (env : ExtCall → Bool)
    (sd : SessionResourceData) :
    CleanupResult × SessionResourceData × List ExtCall :=
  let p1 := phase1StopMonitoring sd
  let p2 := phase2CleanupStagehand env p1.1
  let p3 := phase3CleanupMemory p2.1
  let p4 := phase4CleanupAdsPower p3.1
  let p5 := phase5CleanupProxy p4.1
  let p6 := phase6CleanupThreads p5.1
  ({ success := true, phasesCompleted := 6, errors := [] }, p6.1,
    p1.2 ++ p2.2 ++ p3.2 ++ p4.2 ++ p5.2 ++ p6.2)

/-- The resource set after one full cleanup: handle references and the
timer are cleared, the stop flag is set; the manager references
(`adsPowerManager`, `proxyManager`) and identifiers survive. -/
def postCleanupState (sd : SessionResourceData) : SessionResourceData :=
  { sd with
    proxyInfo := none, stagehand := none, superEngine := none,
    browserInfo := none, memoryManager := none,
    digitalPersonMemoryManager := none, monitorInterval := none,
    monitorStopFlag := true, additionalResources := none }

/-! ### WindowMonitoringSystem (window-closed monitor) -/

inductive MonitoringStatus where
  | idle
  | monitoring
  | windowClosed
  | cleanupInProgress
  | cleanupCompleted
  | errorState
  deriving Repr, DecidableEq

structure MonitoringConfig where
  checkInterval : Nat
  maxRetries : Nat
  timeoutDuration : Nat
  enableAutoCleanup : Bool
  deriving Repr, DecidableEq

/-- The `defaultConfig` field of `WindowMonitoringSystem`. -/
def defaultMonitoringConfig : MonitoringConfig :=
  { checkInterval := 2000, maxRetries := 3, timeoutDuration := 10000,
    enableAutoCleanup := true }

/-- A monitoring session together with its membership in the
`activeSessions` map and whether its poll timer is still scheduled. -/
structure MonitoringSession where
  sessionId : String
  profileId : String
  status : MonitoringStatus
  checkCount : Nat
  errorCount : Nat
  sessionData : SessionResourceData
  timerActive : Bool
  stopFlag : Bool
  inActiveSet : Bool
  deriving Repr, DecidableEq

/-- `startMonitoring(sessionId, sessionData)`. -/
def startMonitoring (sessionId : String) (sd : SessionResourceData) :
    MonitoringSession :=
  { sessionId := sessionId, profileId := sd.profileId.getD "",
    status := MonitoringStatus.monitoring, checkCount := 0, errorCount := 0,
    sessionData := { sd with
      monitorInterval := some (), monitorStopFlag := false },
    timerActive := true, stopFlag := false, inActiveSet := true }

/-- One response of the AdsPower status endpoint (or its failure). -/
inductive AdsStatusResponse where
  | okJson (code : Int) (dataStatus : Option String)
  | httpFail (status : Nat)
  | netError (msg : String)

/-- `checkAdsPowerWindowStatus(profileId)`: `ok false` = window open,
`ok true` = window closed, `error` = rethrown network error.  A non-404
HTTP failure throws `AdsPower API 返回 <status>` into the function's own
catch, whose message matches neither `timeout` nor `ECONNREFUSED`, so it
yields `true` (closed). -/
def checkAdsPowerWindowStatus : AdsStatusResponse → Except String Bool
  | .okJson code dataStatus =>
    if code = 0 ∧ dataStatus = some "Active" then .ok false else .ok true
  | .httpFail status =>
    if status = 404 then .ok true
    else
      let errorMessage := "AdsPower API 返回 " ++ toString status
      if strIncludes errorMessage "timeout" ||
          strIncludes errorMessage "ECONNREFUSED" then .error errorMessage
      else .ok true
  | .netError msg =>
    if strIncludes msg "timeout" || strIncludes msg "ECONNREFUSED" then
      .error msg
    else .ok true

/-- `stopMonitoringTimer(session)`. -/
def stopMonitoringTimer (s : MonitoringSession) : MonitoringSession :=
  { s with
    timerActive := false,
    sessionData := { s.sessionData with monitorInterval := none } }

/-- `handleWindowClosed(session)`: stop the timer, run the full cleanup,
set the final status from the cleanup report and drop the session from
the active set.  Returns the number of cleanup invocations (always 1) and
the list of status values assigned during the call. -/
def handleWindowClosed (env : ExtCall → Bool) (s : MonitoringSession) :
    MonitoringSession × Nat × List MonitoringStatus :=
  let s1 := stopMonitoringTimer
    { s with status := MonitoringStatus.cleanupInProgress }
  let c := executeComprehensiveCleanup env s1.sessionData
  let s2 := { s1 with
    sessionData := c.2.1,
    status := if c.1.success then MonitoringStatus.cleanupCompleted
      else MonitoringStatus.errorState,
    inActiveSet := false }
  (s2, 1, [MonitoringStatus.cleanupInProgress, s2.status])

/-- `stopMonitoring(sessionId, reason)` as applied to this session: a no-op
when the session is no longer in `activeSessions`. -/
def stopMonitoring (s : MonitoringSession) : MonitoringSession :=
  if s.inActiveSet then
    stopMonitoringTimer { s with
      stopFlag := true,
      sessionData := { s.sessionData with monitorStopFlag := true },
      status := MonitoringStatus.idle, inActiveSet := false }
  else s

/-- `performWindowCheck(session, config)` for one timer tick with status
response `resp`.  Returns the updated session, the number of cleanup
invocations, and the status values assigned. -/
def performWindowCheck (env : ExtCall → Bool) (config : MonitoringConfig)
    (s : MonitoringSession) (resp : AdsStatusResponse) :
    MonitoringSession × Nat × List MonitoringStatus :=
  if s.stopFlag || s.sessionData.monitorStopFlag then
    (stopMonitoring s, 0, [])
  else
    let s1 := { s with checkCount := s.checkCount + 1 }
    match checkAdsPowerWindowStatus resp with
    | .ok true =>
      let s2 := { s1 with status := MonitoringStatus.windowClosed }
      if config.enableAutoCleanup then
        let h := handleWindowClosed env s2
        (h.1, h.2.1, MonitoringStatus.windowClosed :: h.2.2)
      else (s2, 0, [MonitoringStatus.windowClosed])
    | .ok false => ({ s1 with errorCount := 0 }, 0, [])
    | .error _ =>
      let s2 := { s1 with errorCount := s1.errorCount + 1 }
      if s2.errorCount ≥ config.maxRetries then
        let s3 := { s2 with status := MonitoringStatus.windowClosed }
        if config.enableAutoCleanup then
          let h := handleWindowClosed env s3
          (h.1, h.2.1, MonitoringStatus.windowClosed :: h.2.2)
        else (s3, 0, [MonitoringStatus.windowClosed])
      else (s2, 0, [])

/-- The monitor run: the recurring timer fires once per response while the
interval is still scheduled.  Accumulates cleanup invocations and status
assignments. -/
def monRun (env : ExtCall → Bool) (config : MonitoringConfig)
    (s : MonitoringSession) :
    List AdsStatusResponse → MonitoringSession × Nat × List MonitoringStatus
  | [] => (s, 0, [])
  | resp :: rest =>
    if s.timerActive then
      let step := performWindowCheck env config s resp
      let tail := monRun env config step.1 rest
      (tail.1, step.2.1 + tail.2.1, step.2.2 ++ tail.2.2)
    else
      let tail := monRun env config s rest
      (tail.1, tail.2.1, tail.2.2)

/-! ### Derived definitions and concrete fixtures used by the theorems -/

/-- The spec's stated text-similarity formula `1 − editDistance/maxLen`
(to be compared with the source's `calculateStringSimilarity`). -/
def specTextSim (t1 t2 : String) : ℚ :=
  1 - (levDist t1.data t2.data : ℚ) / ((max t1.length t2.length : Nat) : ℚ)

/-- The spec's Jaccard coefficient `|S₁ ∩ S₂| / |S₁ ∪ S₂|` of the sets
represented by two lists. -/
def jaccardQ (l1 l2 : List String) : ℚ :=
  ((l1.dedup.filter (fun x => x ∈ l2)).length : ℚ) /
    (((l1 ++ l2).dedup.length : Nat) : ℚ)

/-- The spec's stated similarity formula
`0.4·textSim + 0.3·Jaccard(keywords) + 0.2·Jaccard(options) +
0.1·(1 if optionCount equal else 0.5)` (to be compared with the source's
`calculateQuestionSimilarity`). -/
def specSimilarityFormula (f1 f2 : QuestionFeatures) : ℚ :=
  (4/10) * specTextSim f1.normalizedText f2.normalizedText +
  (3/10) * jaccardQ f1.keywords f2.keywords +
  (2/10) * jaccardQ f1.normalizedOptions f2.normalizedOptions +
  (1/10) * (if f1.optionCount = f2.optionCount then 1 else (1/2 : ℚ))

/-- The similarity score `findSimilarQuestion` computes between the query
question and a stored record. -/
def questionSimilarityTo (questionText : String) (options : List String)
    (r : QuestionRecord) : ℚ :=
  calculateQuestionSimilarity (extractQuestionFeatures questionText options)
    (extractQuestionFeatures r.questionText r.options)

/-- Key lookup in the insertion-ordered question object. -/
def questionsLookup (l : List (String × QuestionRecord)) (k : String) :
    Option QuestionRecord :=
  (l.find? (fun p => p.1 = k)).map Prod.snd

/-- The record `recordQuestionAnswer` builds from its arguments. -/
def questionRecordOf (questionText questionType : String)
    (options : List String) (answer answerText pageUrl : String)
    (attempts : Nat) (confidence : ℚ) (now : Nat) : QuestionRecord :=
  { questionId := generateQuestionId questionText pageUrl,
    questionText := questionText, questionType := questionType,
    options := options, answer := answer, answerText := answerText,
    pageUrl := pageUrl, timestamp := now, attempts := attempts,
    confidence := confidence }

/-- The arguments of one `recordQuestionAnswer` call. -/
structure RecOp where
  questionText : String
  questionType : String
  options : List String
  answer : String
  answerText : String
  pageUrl : String
  attempts : Nat
  confidence : ℚ
  now : Nat

/-- A sequence of `recordQuestionAnswer` calls applied in order. -/
def applyRecordOps (mem : QuestionnaireMemory) (ops : List RecOp) :
    QuestionnaireMemory :=
  ops.foldl (fun m op =>
    (recordQuestionAnswer m op.questionText op.questionType op.options
      op.answer op.answerText op.pageUrl op.attempts op.confidence op.now).2)
    mem

/-- The bookkeeping invariant of a per-session memory: the two totals
agree with each other and with the number of stored fingerprints. -/
def MemInvariant (m : QuestionnaireMemory) : Prop :=
  m.completedQuestions = m.totalQuestions ∧
  m.totalQuestions = m.questionOrder.length ∧
  m.totalQuestions = m.questions.length

/-- The accumulator step of `findSimilarQuestion`'s linear scan. -/
def simScanStep (qt : String) (options : List String) (θ : ℚ)
    (best : Option QuestionRecord × ℚ) (entry : String × QuestionRecord) :
    Option QuestionRecord × ℚ :=
  if questionSimilarityTo qt options entry.2 > θ ∧
      questionSimilarityTo qt options entry.2 > best.2 then
    (some entry.2, questionSimilarityTo qt options entry.2)
  else best

/-- A questionnaire page with neither completion signals nor error
keywords. -/
def samplePageSignals : PageSignals :=
  { currentUrl := "https://q.example.com/page",
    bodyText := "请选择一个选项", elementCount := fun _ => 0 }

/-- Environment: two successful navigation rounds, then navigation fails
forever (exhausting the consecutive-failure budget). -/
def envFailBudget : Nat → RoundInput := fun attempt =>
  if attempt ≤ 2 then RoundInput.normal samplePageSignals true true 1 true true
  else RoundInput.normal samplePageSignals true true 1 false true

/-- Environment: navigation always succeeds and the questionnaire never
completes (exhausting the round budget). -/
def envRoundBudget : Nat → RoundInput := fun _ =>
  RoundInput.normal samplePageSignals false false 0 true true

/-- A stored question record used as a concrete fixture. -/
def sampleStoredRecord : QuestionRecord :=
  { questionId := "0123456789abcdef", questionText := "你喜欢咖啡吗？",
    questionType := "single_choice", options := ["是", "否"], answer := "是",
    answerText := "是", pageUrl := "https://q.example.com/page",
    timestamp := 0, attempts := 1, confidence := 1 }

/-- A per-session memory holding exactly one record. -/
def memWithOneRecord : QuestionnaireMemory :=
  { questionnaireId := "q1", digitalPersonId := "p1", startTime := 0,
    questions := [("0123456789abcdef", sampleStoredRecord)],
    questionOrder := ["0123456789abcdef"], currentPosition := 0,
    totalQuestions := 1, completedQuestions := 1 }

/-- A stored record whose text survives `\w`-based keyword extraction. -/
def coffeeRecord : QuestionRecord :=
  { questionId := "cafe", questionText := "Do you like coffee?",
    questionType := "single_choice",
    options := ["Yes please", "No thanks"], answer := "A",
    answerText := "Yes please", pageUrl := "https://q.example.com/page",
    timestamp := 0, attempts := 1, confidence := 1 }

/-- A per-session memory holding exactly the coffee record. -/
def memWithCoffee : QuestionnaireMemory :=
  { questionnaireId := "q2", digitalPersonId := "p2", startTime := 0,
    questions := [("cafe", coffeeRecord)],
    questionOrder := ["cafe"], currentPosition := 0,
    totalQuestions := 1, completedQuestions := 1 }

/-- A similarity primitive that throws (as a corrupt imported record
makes the real one do). -/
def failingSimilarity :
    QuestionFeatures → QuestionFeatures → Except String ℚ :=
  fun _ _ => Except.error "TypeError: Cannot read properties of null"

/-- A fully populated session resource set. -/
def sdFull : SessionResourceData :=
  { sessionId := "session-1", profileId := some "profile-1",
    proxyInfo := some (),
    stagehand := some ⟨some ⟨["https://q.example.com/page"]⟩⟩,
    superEngine := some (), browserInfo := some (),
    adsPowerManager := some (), proxyManager := some (),
    memoryManager := some (), digitalPersonMemoryManager := some (),
    monitorInterval := some (), monitorStopFlag := false,
    additionalResources := some () }

/-- The environment in which every external call succeeds. -/
def allCallsSucceed : ExtCall → Bool := fun _ => true

/-- The monitoring session left behind by three consecutive failed
window checks (each a rethrown network timeout) from a fresh session. -/
def sessionAfterTripleTimeout (env : ExtCall → Bool) (sid : String)
    (sd : SessionResourceData) : MonitoringSession :=
  (performWindowCheck env defaultMonitoringConfig
    (performWindowCheck env defaultMonitoringConfig
      (performWindowCheck env defaultMonitoringConfig
        (startMonitoring sid sd) (AdsStatusResponse.netError "timeout")).1
      (AdsStatusResponse.netError "timeout")).1
    (AdsStatusResponse.netError "timeout")).1

/-- A monitor run that sees three consecutive timeout failures and then
an arbitrary remainder of responses. -/
def tripleTimeoutRun (env : ExtCall → Bool) (sid : String)
    (sd : SessionResourceData) (rest : List AdsStatusResponse) :
    MonitoringSession × Nat × List MonitoringStatus :=
  monRun env defaultMonitoringConfig (startMonitoring sid sd)
    (AdsStatusResponse.netError "timeout" ::
      AdsStatusResponse.netError "timeout" ::
      AdsStatusResponse.netError "timeout" :: rest)

/-- What actually holds of every outcome of the continuous answering loop:
a status from the three-element set; the detector's fixed details string as
reason exactly for `completed`; the progress-summary reason for both other
termination conditions (which are therefore not distinguished by the
reason); `partial_completed` iff any page was processed. -/
def LoopOutcomeOK (r : ContinuousAnsweringOutcome) : Prop :=
  (r.finalStatus = "completed" ∨ r.finalStatus = "partial_completed" ∨
    r.finalStatus = "failed") ∧
  (r.finalStatus = "completed" →
    r.completionReason = "检测到明确的问卷结束信号") ∧
  (r.finalStatus ≠ "completed" →
    r.completionReason =
      progressReason r.totalPagesProcessed r.totalQuestionsAnswered) ∧
  (r.finalStatus = "partial_completed" → 0 < r.totalPagesProcessed) ∧
  (r.finalStatus = "failed" → r.totalPagesProcessed = 0)

/-! ### Supporting lemmas -/

lemma isPrefixOf_map (f : Char → Char) :
    ∀ (p s : List Char), p.isPrefixOf s = true →
      (p.map f).isPrefixOf (s.map f) = true := by
  intro p
  induction p with
  | nil => intro s _; simp [List.isPrefixOf]
  | cons a as ih =>
    intro s h
    cases s with
    | nil => simp [List.isPrefixOf] at h
    | cons b bs =>
      simp only [List.isPrefixOf, Bool.and_eq_true, beq_iff_eq] at h
      simp only [List.map_cons, List.isPrefixOf, Bool.and_eq_true, beq_iff_eq]
      exact ⟨by rw [h.1], ih bs h.2⟩

lemma subListB_map (f : Char → Char) :
    ∀ (p s : List Char), subListB p s = true →
      subListB (p.map f) (s.map f) = true := by
  intro p s
  induction s with
  | nil =>
    simp only [subListB, List.isEmpty_iff]
    intro h; subst h; simp
  | cons c cs ih =>
    simp only [subListB, List.map_cons, Bool.or_eq_true]
    rintro (h | h)
    · exact Or.inl (isPrefixOf_map f p (c :: cs) h)
    · exact Or.inr (ih h)

/-- A substring whose characters are fixed by `toLower` (such as
`"thank-you"`) survives lowercasing of the containing string. -/
lemma strIncludes_toLowerStr (s pat : String)
    (hfix : pat.data.map Char.toLower = pat.data)
    (h : strIncludes s pat = true) :
    strIncludes (toLowerStr s) pat = true := by
  have := subListB_map Char.toLower pat.data s.data h
  rw [hfix] at this
  simpa [strIncludes, toLowerStr] using this

/-! ### C1: completion-detector verdict structure -/

/-- C1.  The detector classifies a page as complete precisely when the
lowercased URL contains one of the fixed completion-path substrings, or
the lowercased visible text contains one of the fixed completion phrases,
or one of the fixed completion-marker selectors matches at least one
element; every other signal combination (including error keywords or
indeterminate states) yields the `continue_answering` verdict, and a URL
containing `thank-you` forces the complete verdict regardless of body
text. -/
theorem completion_detector_verdict (sig : PageSignals) :
    (((intelligentCompletionDetection sig).isSuccess = true ∧
      (intelligentCompletionDetection sig).successType = "complete") ↔
      (completionUrlPatterns.any
          (fun pattern => strIncludes (toLowerStr sig.currentUrl) pattern) =
            true ∨
        completionSignals.any (fun signal =>
          strIncludes (toLowerStr sig.bodyText) (toLowerStr signal)) = true ∨
        ∃ selector ∈ completionSelectors, 0 < sig.elementCount selector)) ∧
    (((intelligentCompletionDetection sig).isSuccess = true ∧
      (intelligentCompletionDetection sig).successType = "complete") ∨
     ((intelligentCompletionDetection sig).isSuccess = false ∧
      (intelligentCompletionDetection sig).successType =
        "continue_answering")) ∧
    (strIncludes sig.currentUrl "thank-you" = true →
      (intelligentCompletionDetection sig).isSuccess = true ∧
      (intelligentCompletionDetection sig).successType = "complete") := by
  have hsplit :
      detectStrictCompletionSignals sig (toLowerStr sig.bodyText) = true ↔
      (completionUrlPatterns.any
          (fun pattern => strIncludes (toLowerStr sig.currentUrl) pattern) =
            true ∨
        completionSignals.any (fun signal =>
          strIncludes (toLowerStr sig.bodyText) (toLowerStr signal)) = true ∨
        ∃ selector ∈ completionSelectors, 0 < sig.elementCount selector) := by
    simp [detectStrictCompletionSignals, List.any_eq_true, or_assoc]
  refine ⟨?_, ?_, ?_⟩
  · rw [← hsplit]
    unfold intelligentCompletionDetection
    by_cases h : detectStrictCompletionSignals sig (toLowerStr sig.bodyText) =
        true
    · simp [h]
    · simp only [Bool.not_eq_true] at h
      simp [h]
  · unfold intelligentCompletionDetection
    by_cases h : detectStrictCompletionSignals sig (toLowerStr sig.bodyText) =
        true
    · simp [h]
    · right
      simp only [Bool.not_eq_true] at h
      simp [h]
  · intro hurl
    have hlow : strIncludes (toLowerStr sig.currentUrl) "thank-you" = true :=
      strIncludes_toLowerStr _ _ (by decide) hurl
    have hany : completionUrlPatterns.any
        (fun pattern => strIncludes (toLowerStr sig.currentUrl) pattern) =
          true := by
      have : "thank-you" ∈ completionUrlPatterns := by decide
      exact List.any_eq_true.mpr ⟨"thank-you", this, hlow⟩
    have hstrict :
        detectStrictCompletionSignals sig (toLowerStr sig.bodyText) = true := by
      simp [detectStrictCompletionSignals, hany]
    unfold intelligentCompletionDetection
    simp [hstrict]

/-- C1 witness: a URL containing `thank-you` over a body with only error
keywords still yields the complete verdict. -/
theorem completion_detector_verdict_witness :
    strIncludes "https://survey.example.com/thank-you?id=1" "thank-you" =
      true ∧
    (intelligentCompletionDetection
      ⟨"https://survey.example.com/thank-you?id=1",
        "server error 系统崩溃", fun _ => 0⟩).isSuccess = true ∧
    (intelligentCompletionDetection
      ⟨"https://survey.example.com/thank-you?id=1",
        "server error 系统崩溃", fun _ => 0⟩).successType = "complete" :=
  ⟨by decide,
    (completion_detector_verdict
      ⟨"https://survey.example.com/thank-you?id=1",
        "server error 系统崩溃", fun _ => 0⟩).2.2 (by decide)⟩

/-! ### C2: continuous answering loop -/

lemma detector_complete_fields (sig : PageSignals)
    (h : (intelligentCompletionDetection sig).isSuccess = true) :
    (intelligentCompletionDetection sig).details =
      "检测到明确的问卷结束信号" := by
  unfold intelligentCompletionDetection at *
  by_cases hs :
      detectStrictCompletionSignals sig (toLowerStr sig.bodyText) = true
  · simp [hs]
  · simp only [Bool.not_eq_true] at hs
    simp [hs] at h

lemma contRoundsGo_le (env : Nat → RoundInput) :
    ∀ remaining attempt fails,
      contRoundsGo env remaining attempt fails ≤ remaining := by
  intro remaining
  induction remaining with
  | zero => intro _ _; simp [contRoundsGo]
  | succ n ih =>
    intro attempt fails
    show (match env attempt with
      | RoundInput.throwsErr =>
        if fails + 1 ≥ maxContinuousFailures then 1
        else 1 + contRoundsGo env n (attempt + 1) (fails + 1)
      | RoundInput.normal sig _hasQ _hasUA _answered nav _pc =>
        let completionResult := intelligentCompletionDetection sig
        if completionResult.isSuccess && completionResult.shouldCleanup then 1
        else if !nav then
          if fails + 1 ≥ maxContinuousFailures then 1
          else 1 + contRoundsGo env n (attempt + 1) (fails + 1)
        else 1 + contRoundsGo env n (attempt + 1) 0) ≤ n + 1
    cases env attempt with
    | throwsErr =>
      dsimp only
      split
      · omega
      · have h2 := ih (attempt + 1) (fails + 1)
        rw [Nat.add_comm]
        exact Nat.succ_le_succ h2
    | normal sig hq hua ans nav pc =>
      dsimp only
      split
      · omega
      · split
        · split
          · omega
          · have h2 := ih (attempt + 1) (fails + 1)
            rw [Nat.add_comm]
            exact Nat.succ_le_succ h2
        · have h2 := ih (attempt + 1) 0
          rw [Nat.add_comm]
          exact Nat.succ_le_succ h2

lemma finishOutcome_ok (pages questions : Nat) :
    LoopOutcomeOK (finishOutcome pages questions) := by
  unfold LoopOutcomeOK finishOutcome
  by_cases hp : pages > 0
  · refine ⟨?_, ?_, ?_, ?_, ?_⟩
    · simp [if_pos hp]
    · intro h
      simp only [if_pos hp] at h
      exact absurd h (by decide)
    · intro _; rfl
    · intro _; exact hp
    · intro h
      simp only [if_pos hp] at h
      exact absurd h (by decide)
  · refine ⟨?_, ?_, ?_, ?_, ?_⟩
    · simp [if_neg hp]
    · intro h
      simp only [if_neg hp] at h
      exact absurd h (by decide)
    · intro _; rfl
    · intro h
      simp only [if_neg hp] at h
      exact absurd h (by decide)
    · intro _
      show pages = 0
      omega

lemma contGo_ok (env : Nat → RoundInput) :
    ∀ remaining attempt pages questions fails,
      LoopOutcomeOK (contGo env remaining attempt pages questions fails) := by
  intro remaining
  induction remaining with
  | zero => intro _ p q _; exact finishOutcome_ok p q
  | succ n ih =>
    intro attempt pages questions fails
    show LoopOutcomeOK (match env attempt with
      | RoundInput.throwsErr =>
        if fails + 1 ≥ maxContinuousFailures then
          finishOutcome pages questions
        else contGo env n (attempt + 1) pages questions (fails + 1)
      | RoundInput.normal sig hasQ hasUA answered nav _pc =>
        let completionResult := intelligentCompletionDetection sig
        if completionResult.isSuccess && completionResult.shouldCleanup then
          { totalPagesProcessed := pages, totalQuestionsAnswered := questions,
            finalStatus := "completed",
            completionReason := completionResult.details }
        else
          let questions' :=
            if hasQ && hasUA then questions + answered else questions
          if !nav then
            if fails + 1 ≥ maxContinuousFailures then
              finishOutcome pages questions'
            else contGo env n (attempt + 1) pages questions' (fails + 1)
          else contGo env n (attempt + 1) (pages + 1) questions' 0)
    cases env attempt with
    | throwsErr =>
      dsimp only
      split
      · exact finishOutcome_ok _ _
      · exact ih _ _ _ _
    | normal sig hq hua ans nav pc =>
      dsimp only
      split
      · next hcomp =>
        have hs : (intelligentCompletionDetection sig).isSuccess = true := by
          simp only [Bool.and_eq_true] at hcomp
          exact hcomp.1
        refine ⟨Or.inl rfl, fun _ => detector_complete_fields sig hs,
          fun hne => absurd rfl hne, ?_, ?_⟩
        · intro h
          exact absurd (show ("completed" : String) = "partial_completed"
            from h) (by decide)
        · intro h
          exact absurd (show ("completed" : String) = "failed" from h)
            (by decide)
      · split
        · split
          · exact finishOutcome_ok _ _
          · exact ih _ _ _ _
        · exact ih _ _ _ _

/-- C2 (amended).  The loop always terminates within the round budget
(`maxContinuousAttempts`, default 200) and its `finalStatus` is one of
`completed`, `partial_completed`, `failed`; but the three termination
conditions do not each carry a distinct status or a condition-naming
reason: only definite completion is identifiable (status `completed`,
reason the detector's details), while failure-budget and round-budget
exhaustion both report the same progress-summary reason and both map to
`partial_completed` or `failed` purely according to whether any page was
processed. -/
theorem continuous_answering_amended (env : Nat → RoundInput) (n : Nat) :
    contRounds env n ≤ n ∧
    LoopOutcomeOK (executeContinuousAnswering env n) :=
  ⟨contRoundsGo_le env n 1 0, contGo_ok env n 1 0 0 0⟩

/-- C2 witness: at the concrete failure-budget environment, the theorem's
non-completed reason clause applies. -/
theorem continuous_answering_amended_witness :
    (executeContinuousAnswering envFailBudget 200).finalStatus ≠
      "completed" ∧
    (executeContinuousAnswering envFailBudget 200).completionReason =
      progressReason
        (executeContinuousAnswering envFailBudget 200).totalPagesProcessed
        (executeContinuousAnswering envFailBudget 200).totalQuestionsAnswered :=
  ⟨by decide,
    (continuous_answering_amended envFailBudget 200).2.2.2.1 (by decide)⟩

set_option maxRecDepth 100000 in
/-- C2 counterexample.  A run that exhausts the consecutive-failure budget
(only 10 of 200 rounds executed) and a run that exhausts the round budget
(all 200 rounds executed) both finish with `finalStatus =
"partial_completed"`, and both reasons are bare progress summaries — so
the three termination conditions neither yield distinct final statuses nor
are named by the reason string. -/
theorem continuous_answering_counterexample :
    contRounds envFailBudget 200 = 10 ∧
    contRounds envRoundBudget 200 = 200 ∧
    (executeContinuousAnswering envFailBudget 200).finalStatus =
      "partial_completed" ∧
    (executeContinuousAnswering envRoundBudget 200).finalStatus =
      "partial_completed" ∧
    (executeContinuousAnswering envFailBudget 200).completionReason =
      "处理了2页，回答了10个问题" ∧
    (executeContinuousAnswering envRoundBudget 200).completionReason =
      "处理了200页，回答了0个问题" := by
  decide

/-! ### C6: question fingerprints -/

set_option maxRecDepth 100000 in
/-- C6 counterexample.  `"a b"` and `"ab"` differ only in whitespace (the
first conjunct: deleting whitespace from one yields the other), yet their
fingerprints for the same page URL differ, because whitespace is collapsed
to single spaces — not removed — before hashing. -/
theorem fingerprint_whitespace_counterexample :
    "a b".data.filter (fun c => !(isJsSpace c)) = "ab".data ∧
    generateQuestionId "a b" "https://ex.com/q" ≠
      generateQuestionId "ab" "https://ex.com/q" := by
  decide

/-- C6 (amended).  The fingerprint is a deterministic function of
`(pageUrl, questionText)` and is stable under normalization-equivalent
texts: any two texts with the same normalized form (lowercased,
whitespace-collapsed, punctuation-stripped) hash to the same fingerprint.
(Texts differing only in whitespace need not normalize equally, see the
counterexample.) -/
theorem fingerprint_normalization_stable (pageUrl t1 t2 : String)
    (h : normalizeQuestionText t1 = normalizeQuestionText t2) :
    generateQuestionId t1 pageUrl = generateQuestionId t2 pageUrl := by
  unfold generateQuestionId
  rw [h]

set_option maxRecDepth 100000 in
/-- C6 witness: a case/whitespace/punctuation variant normalizing equally
gets the same fingerprint. -/
theorem fingerprint_normalization_stable_witness :
    normalizeQuestionText "  Do you LIKE coffee?  " =
      normalizeQuestionText "do you like coffee" ∧
    generateQuestionId "  Do you LIKE coffee?  " "https://ex.com/q" =
      generateQuestionId "do you like coffee" "https://ex.com/q" :=
  ⟨by decide,
    fingerprint_normalization_stable "https://ex.com/q"
      "  Do you LIKE coffee?  " "do you like coffee" (by decide)⟩

/-! ### C7 and C10: recording answers -/

lemma updateEntry_map_fst (l : List (String × QuestionRecord)) (id : String)
    (r : QuestionRecord) :
    (updateEntry l id r).map Prod.fst = l.map Prod.fst := by
  induction l with
  | nil => rfl
  | cons p t ih =>
    by_cases h : p.1 = id <;> simp [updateEntry, h] at ih ⊢ <;>
      simpa [updateEntry] using ih

lemma updateEntry_length (l : List (String × QuestionRecord)) (id : String)
    (r : QuestionRecord) : (updateEntry l id r).length = l.length := by
  simp [updateEntry]

lemma questionsLookup_updateEntry_self (l : List (String × QuestionRecord))
    (id : String) (r : QuestionRecord) (hmem : id ∈ l.map Prod.fst) :
    questionsLookup (updateEntry l id r) id = some r := by
  induction l with
  | nil => simp at hmem
  | cons p t ih =>
    by_cases h : p.1 = id
    · simp [questionsLookup, updateEntry, List.find?, h]
    · simp only [List.map_cons, List.mem_cons] at hmem
      rcases hmem with hmem | hmem
      · exact absurd hmem.symm h
      · simpa [questionsLookup, updateEntry, List.find?, h] using ih hmem

lemma questionsLookup_updateEntry_other (l : List (String × QuestionRecord))
    (id : String) (r : QuestionRecord) (k : String) (hk : k ≠ id) :
    questionsLookup (updateEntry l id r) k = questionsLookup l k := by
  induction l with
  | nil => rfl
  | cons p t ih =>
    by_cases h : p.1 = id
    · have hpk : ¬ (id = k) := fun he => hk he.symm
      have hpk2 : ¬ (p.1 = k) := by rw [h]; exact hpk
      simpa [questionsLookup, updateEntry, List.find?, h, hpk, hpk2] using ih
    · by_cases h2 : p.1 = k
      · simp [questionsLookup, updateEntry, List.find?, h, h2, hk]
      · simpa [questionsLookup, updateEntry, List.find?, h, h2] using ih

lemma questionsLookup_append_new (l : List (String × QuestionRecord))
    (id : String) (r : QuestionRecord) (hnot : id ∉ l.map Prod.fst) :
    questionsLookup (l ++ [(id, r)]) id = some r := by
  induction l with
  | nil => simp [questionsLookup, List.find?]
  | cons p t ih =>
    simp only [List.map_cons, List.mem_cons, not_or] at hnot
    have hp : ¬ (p.1 = id) := fun he => hnot.1 he.symm
    simpa [questionsLookup, List.find?, hp] using ih hnot.2

lemma record_answer_fst (mem : QuestionnaireMemory)
    (qt qty : String) (options : List String) (ans ansText pageUrl : String)
    (attempts : Nat) (confidence : ℚ) (now : Nat) :
    (recordQuestionAnswer mem qt qty options ans ansText pageUrl attempts
        confidence now).1 = generateQuestionId qt pageUrl := by
  unfold recordQuestionAnswer
  by_cases hmem : generateQuestionId qt pageUrl ∈ memKeys mem
  · rw [if_pos hmem]
  · rw [if_neg hmem]

lemma record_answer_repeat (mem : QuestionnaireMemory)
    (qt qty : String) (options : List String) (ans ansText pageUrl : String)
    (attempts : Nat) (confidence : ℚ) (now : Nat)
    (hmem : generateQuestionId qt pageUrl ∈ memKeys mem) :
    (recordQuestionAnswer mem qt qty options ans ansText pageUrl attempts
        confidence now).2.totalQuestions = mem.totalQuestions ∧
    (recordQuestionAnswer mem qt qty options ans ansText pageUrl attempts
        confidence now).2.completedQuestions = mem.completedQuestions ∧
    (recordQuestionAnswer mem qt qty options ans ansText pageUrl attempts
        confidence now).2.questionOrder = mem.questionOrder ∧
    memKeys (recordQuestionAnswer mem qt qty options ans ansText pageUrl
        attempts confidence now).2 = memKeys mem ∧
    questionsLookup (recordQuestionAnswer mem qt qty options ans ansText
        pageUrl attempts confidence now).2.questions
        (generateQuestionId qt pageUrl) =
      some (questionRecordOf qt qty options ans ansText pageUrl attempts
        confidence now) ∧
    ∀ k, k ≠ generateQuestionId qt pageUrl →
      questionsLookup (recordQuestionAnswer mem qt qty options ans ansText
          pageUrl attempts confidence now).2.questions k =
        questionsLookup mem.questions k := by
  unfold recordQuestionAnswer
  rw [if_pos hmem]
  refine ⟨rfl, rfl, rfl, ?_, ?_, ?_⟩
  · exact updateEntry_map_fst mem.questions _ _
  · exact questionsLookup_updateEntry_self mem.questions _ _ hmem
  · intro k hk
    exact questionsLookup_updateEntry_other mem.questions _ _ k hk

lemma record_answer_new (mem : QuestionnaireMemory)
    (qt qty : String) (options : List String) (ans ansText pageUrl : String)
    (attempts : Nat) (confidence : ℚ) (now : Nat)
    (htot : mem.totalQuestions = mem.questions.length)
    (hnot : generateQuestionId qt pageUrl ∉ memKeys mem) :
    (recordQuestionAnswer mem qt qty options ans ansText pageUrl attempts
        confidence now).2.questionOrder =
      mem.questionOrder ++ [generateQuestionId qt pageUrl] ∧
    (recordQuestionAnswer mem qt qty options ans ansText pageUrl attempts
        confidence now).2.totalQuestions = mem.totalQuestions + 1 ∧
    (recordQuestionAnswer mem qt qty options ans ansText pageUrl attempts
        confidence now).2.completedQuestions = mem.completedQuestions + 1 ∧
    questionsLookup (recordQuestionAnswer mem qt qty options ans ansText
        pageUrl attempts confidence now).2.questions
        (generateQuestionId qt pageUrl) =
      some (questionRecordOf qt qty options ans ansText pageUrl attempts
        confidence now) := by
  unfold recordQuestionAnswer
  rw [if_neg hnot]
  refine ⟨rfl, ?_, rfl, ?_⟩
  · show (mem.questions ++ [_]).length = mem.totalQuestions + 1
    rw [List.length_append, htot]
    rfl
  · exact questionsLookup_append_new mem.questions _ _ hnot

/-- C7.  Recording is idempotent per fingerprint: on a repeated
fingerprint the stored record is overwritten in place (same key set, same
`questionOrder`, both totals unchanged, other keys untouched); on a
first-seen fingerprint the id is appended to `questionOrder` and both
totals grow by one. -/
theorem record_answer_idempotent (mem : QuestionnaireMemory)
    (qt qty : String) (options : List String) (ans ansText pageUrl : String)
    (attempts : Nat) (confidence : ℚ) (now : Nat)
    (htot : mem.totalQuestions = mem.questions.length) :
    (recordQuestionAnswer mem qt qty options ans ansText pageUrl attempts
        confidence now).1 = generateQuestionId qt pageUrl ∧
    (generateQuestionId qt pageUrl ∈ memKeys mem →
      (recordQuestionAnswer mem qt qty options ans ansText pageUrl attempts
          confidence now).2.totalQuestions = mem.totalQuestions ∧
      (recordQuestionAnswer mem qt qty options ans ansText pageUrl attempts
          confidence now).2.completedQuestions = mem.completedQuestions ∧
      (recordQuestionAnswer mem qt qty options ans ansText pageUrl attempts
          confidence now).2.questionOrder = mem.questionOrder ∧
      memKeys (recordQuestionAnswer mem qt qty options ans ansText pageUrl
          attempts confidence now).2 = memKeys mem ∧
      questionsLookup (recordQuestionAnswer mem qt qty options ans ansText
          pageUrl attempts confidence now).2.questions
          (generateQuestionId qt pageUrl) =
        some (questionRecordOf qt qty options ans ansText pageUrl attempts
          confidence now) ∧
      ∀ k, k ≠ generateQuestionId qt pageUrl →
        questionsLookup (recordQuestionAnswer mem qt qty options ans ansText
            pageUrl attempts confidence now).2.questions k =
          questionsLookup mem.questions k) ∧
    (generateQuestionId qt pageUrl ∉ memKeys mem →
      (recordQuestionAnswer mem qt qty options ans ansText pageUrl attempts
          confidence now).2.questionOrder =
        mem.questionOrder ++ [generateQuestionId qt pageUrl] ∧
      (recordQuestionAnswer mem qt qty options ans ansText pageUrl attempts
          confidence now).2.totalQuestions = mem.totalQuestions + 1 ∧
      (recordQuestionAnswer mem qt qty options ans ansText pageUrl attempts
          confidence now).2.completedQuestions =
        mem.completedQuestions + 1 ∧
      questionsLookup (recordQuestionAnswer mem qt qty options ans ansText
          pageUrl attempts confidence now).2.questions
          (generateQuestionId qt pageUrl) =
        some (questionRecordOf qt qty options ans ansText pageUrl attempts
          confidence now)) :=
  ⟨record_answer_fst mem qt qty options ans ansText pageUrl attempts
      confidence now,
    fun h => record_answer_repeat mem qt qty options ans ansText pageUrl
      attempts confidence now h,
    fun h => record_answer_new mem qt qty options ans ansText pageUrl
      attempts confidence now htot h⟩

set_option maxRecDepth 100000 in
/-- C7 witness: recording into a fresh memory returns the fingerprint of
the (pageUrl, normalized text) pair. -/
theorem record_answer_idempotent_witness :
    (freshMemory "q1" "p1" 0).totalQuestions =
      (freshMemory "q1" "p1" 0).questions.length ∧
    (recordQuestionAnswer (freshMemory "q1" "p1" 0) "Do you like coffee?"
        "single_choice" ["Yes", "No"] "Yes" "Yes" "https://ex.com/q" 1 1
        5).1 = generateQuestionId "Do you like coffee?" "https://ex.com/q" :=
  ⟨rfl,
    (record_answer_idempotent (freshMemory "q1" "p1" 0) "Do you like coffee?"
      "single_choice" ["Yes", "No"] "Yes" "Yes" "https://ex.com/q" 1 1 5
      rfl).1⟩

lemma recordQuestionAnswer_invariant (m : QuestionnaireMemory)
    (qt qty : String) (options : List String)
    (ans ansText pageUrl : String) (attempts : Nat) (confidence : ℚ)
    (now : Nat) (h : MemInvariant m) :
    MemInvariant (recordQuestionAnswer m qt qty options ans ansText pageUrl
      attempts confidence now).2 ∧
    m.totalQuestions ≤ (recordQuestionAnswer m qt qty options ans ansText
      pageUrl attempts confidence now).2.totalQuestions := by
  obtain ⟨h1, h2, h3⟩ := h
  unfold recordQuestionAnswer
  by_cases hmem : generateQuestionId qt pageUrl ∈ memKeys m
  · rw [if_pos hmem]
    exact ⟨⟨h1, h2, by simpa [updateEntry_length] using h3⟩, le_refl _⟩
  · rw [if_neg hmem]
    generalize generateQuestionId qt pageUrl = qid0
    refine ⟨⟨?_, ?_, ?_⟩, ?_⟩
    · show m.completedQuestions + 1 = (m.questions ++ [_]).length
      rw [List.length_append, h1.trans h3]
      rfl
    · show (m.questions ++ [_]).length = (m.questionOrder ++ [_]).length
      rw [List.length_append, List.length_append, ← h2, ← h3]
      rfl
    · rfl
    · show m.totalQuestions ≤ (m.questions ++ [_]).length
      rw [List.length_append, h3]
      simp

lemma applyRecordOps_invariant :
    ∀ (ops : List RecOp) (m : QuestionnaireMemory), MemInvariant m →
      MemInvariant (applyRecordOps m ops) ∧
      m.totalQuestions ≤ (applyRecordOps m ops).totalQuestions := by
  intro ops
  induction ops with
  | nil => intro m h; exact ⟨h, le_refl _⟩
  | cons op rest ih =>
    intro m h
    have hstep := recordQuestionAnswer_invariant m op.questionText
      op.questionType op.options op.answer op.answerText op.pageUrl
      op.attempts op.confidence op.now h
    have := ih _ hstep.1
    exact ⟨this.1, le_trans hstep.2 this.2⟩

lemma applyRecordOps_cons (m : QuestionnaireMemory) (op : RecOp)
    (rest : List RecOp) :
    applyRecordOps m (op :: rest) =
      applyRecordOps ((recordQuestionAnswer m op.questionText op.questionType
        op.options op.answer op.answerText op.pageUrl op.attempts
        op.confidence op.now).2) rest := rfl

/-- C10.  After any sequence of `recordQuestionAnswer` calls on a freshly
constructed memory, `completedQuestions = totalQuestions =
|questionOrder| = |questions|`, so the reported completion rate is 0
before the first record and exactly 100 afterwards — never strictly
between. -/
theorem memory_progress_rate (qid did : String) (start now : Nat)
    (ops : List RecOp) :
    MemInvariant (applyRecordOps (freshMemory qid did start) ops) ∧
    (getProgressInfo (applyRecordOps (freshMemory qid did start) ops)
        now).completionRate = (if ops.isEmpty then 0 else 100) := by
  have hfresh : MemInvariant (freshMemory qid did start) := ⟨rfl, rfl, rfl⟩
  have hinv := (applyRecordOps_invariant ops _ hfresh).1
  refine ⟨hinv, ?_⟩
  cases ops with
  | nil =>
    simp [applyRecordOps, getProgressInfo, freshMemory]
  | cons op rest =>
    have hone : (recordQuestionAnswer (freshMemory qid did start)
        op.questionText op.questionType op.options op.answer op.answerText
        op.pageUrl op.attempts op.confidence op.now).2.totalQuestions = 1 := by
      simp [recordQuestionAnswer, freshMemory, memKeys]
    have hstep := recordQuestionAnswer_invariant (freshMemory qid did start)
      op.questionText op.questionType op.options op.answer op.answerText
      op.pageUrl op.attempts op.confidence op.now hfresh
    have hmono := (applyRecordOps_invariant rest _ hstep.1).2
    rw [hone] at hmono
    rw [applyRecordOps_cons] at hinv ⊢
    have htotpos : 0 < (applyRecordOps ((recordQuestionAnswer
        (freshMemory qid did start) op.questionText op.questionType
        op.options op.answer op.answerText op.pageUrl op.attempts
        op.confidence op.now).2) rest).totalQuestions := by omega
    obtain ⟨e1, _, _⟩ := hinv
    have hne : ((applyRecordOps ((recordQuestionAnswer
        (freshMemory qid did start) op.questionText op.questionType
        op.options op.answer op.answerText op.pageUrl op.attempts
        op.confidence op.now).2) rest).totalQuestions : ℚ) ≠ 0 := by
      exact_mod_cast Nat.pos_iff_ne_zero.mp htotpos
    simp only [getProgressInfo, if_pos htotpos, e1]
    rw [div_self hne]
    simp

/-! ### C3 and C8: similarity scoring and best-match suggestion -/

lemma levF_self : ∀ (s : List Char) (n : Nat), s.length ≤ n → levF n s s = 0 := by
  intro s
  induction s with
  | nil => intro n _; cases n <;> simp [levF]
  | cons x xs ih =>
    intro n hn
    cases n with
    | zero => simp at hn
    | succ m =>
      have hm : xs.length ≤ m := by
        simpa [Nat.succ_le_succ_iff] using hn
      simp [levF, ih m hm]

lemma levDist_self (s : List Char) : levDist s s = 0 :=
  levF_self s _ (by omega)

lemma levDist_nil_left (ys : List Char) : levDist [] ys = ys.length := by
  cases ys <;> simp [levDist, levF]

lemma levDist_nil_right (xs : List Char) : levDist xs [] = xs.length := by
  cases xs <;> simp [levDist, levF]

lemma calculateStringSimilarity_self (s : String) :
    calculateStringSimilarity s s = 1 := by
  unfold calculateStringSimilarity
  by_cases h : s.length = 0
  · simp [h]
  · rw [if_neg h, if_neg h]
    have hc : ((max s.length s.length : Nat) : ℚ) ≠ 0 :=
      Nat.cast_ne_zero.mpr (by omega)
    rw [levDist_self]
    dsimp only
    rw [Nat.cast_zero, sub_zero, div_self hc]

lemma length_pos_of_ne_nil {α : Type} {l : List α} (h : l ≠ []) :
    0 < l.length :=
  List.length_pos.mpr h

/-- The source's text similarity equals the spec's `1 − d/maxLen` form
(with `x/0 = 0` covering the two-empty-strings corner). -/
lemma calculateStringSimilarity_eq_spec (a b : String) :
    calculateStringSimilarity a b = specTextSim a b := by
  unfold calculateStringSimilarity specTextSim
  by_cases ha : a.length = 0
  · have hdata : a.data = [] := List.length_eq_zero.mp ha
    by_cases hb : b.length = 0
    · have hdatb : b.data = [] := List.length_eq_zero.mp hb
      simp [ha, hb, hdata, hdatb, levDist_nil_left]
    · have hbc : ((b.length : Nat) : ℚ) ≠ 0 := Nat.cast_ne_zero.mpr hb
      rw [if_pos ha, if_neg hb, hdata, levDist_nil_left]
      show (0 : ℚ) = 1 - (b.data.length : ℚ) / ((max a.length b.length : Nat) : ℚ)
      rw [show max a.length b.length = b.length by rw [ha]; omega]
      show (0 : ℚ) = 1 - (b.length : ℚ) / (b.length : ℚ)
      rw [div_self hbc]
      norm_num
  · by_cases hb : b.length = 0
    · have hdatb : b.data = [] := List.length_eq_zero.mp hb
      have hac : ((a.length : Nat) : ℚ) ≠ 0 := Nat.cast_ne_zero.mpr ha
      rw [if_neg ha, if_pos hb, hdatb, levDist_nil_right]
      rw [show max a.length b.length = a.length by rw [hb]; omega]
      show (0 : ℚ) = 1 - (a.length : ℚ) / (a.length : ℚ)
      rw [div_self hac]
      norm_num
    · rw [if_neg ha, if_neg hb]
      have hmax : max a.length b.length ≠ 0 := by omega
      have hmc : ((max a.length b.length : Nat) : ℚ) ≠ 0 :=
        Nat.cast_ne_zero.mpr hmax
      rw [sub_div, div_self hmc]

/-- The if-guarded ratio the source computes equals the spec's Jaccard
coefficient (the guard only matters when both sets are empty, where the
numerator vanishes too and `0/0 = 0`). -/
lemma guarded_ratio_eq_jaccard (l1 l2 : List String) :
    (if (l1 ++ l2).dedup.length > 0 then
      ((l1.dedup.filter (fun x => x ∈ l2)).length : ℚ) /
        (((l1 ++ l2).dedup.length : Nat) : ℚ)
      else 0) = jaccardQ l1 l2 := by
  unfold jaccardQ
  by_cases h : (l1 ++ l2).dedup.length > 0
  · rw [if_pos h]
  · rw [if_neg h]
    have hd : (l1 ++ l2).dedup = [] := by
      cases he : (l1 ++ l2).dedup with
      | nil => rfl
      | cons c t => rw [he] at h; simp at h
    have hnil : l1 ++ l2 = [] := (List.dedup_eq_nil _).mp hd
    have h1nil : l1 = [] := (List.append_eq_nil.mp hnil).1
    simp [h1nil]

/-- Filtering by membership in a list or in its dedup gives the same
result. -/
lemma filter_mem_dedup_right (l1 l2 : List String) :
    l1.filter (fun x => x ∈ l2.dedup) = l1.filter (fun x => x ∈ l2) := by
  apply List.filter_congr
  intro a _
  simp [List.mem_dedup]

/-- With deduplicated keyword lists, the source's guarded weighted sum is
exactly the spec's formula. -/
lemma calcSim_eq_formula_of (f1 f2 : QuestionFeatures)
    (hk : f1.keywords.dedup = f1.keywords) :
    calculateQuestionSimilarity f1 f2 = specSimilarityFormula f1 f2 := by
  unfold calculateQuestionSimilarity specSimilarityFormula
  dsimp only
  rw [calculateStringSimilarity_eq_spec]
  rw [show f1.keywords.filter (fun k => k ∈ f2.keywords) =
    f1.keywords.dedup.filter (fun k => k ∈ f2.keywords) from by rw [hk]]
  rw [filter_mem_dedup_right]
  rw [guarded_ratio_eq_jaccard, guarded_ratio_eq_jaccard]
  ring

/-- `extractQuestionFeatures` emits an already-deduplicated keyword
list. -/
lemma extract_keywords_nodup (qt : String) (options : List String) :
    (extractQuestionFeatures qt options).keywords.dedup =
      (extractQuestionFeatures qt options).keywords := by
  simp [extractQuestionFeatures, List.dedup_idem]

lemma union_eq_right_of_subset {l l2 : List String}
    (h : ∀ x ∈ l, x ∈ l2) : l ∪ l2 = l2 := by
  induction l with
  | nil => rfl
  | cons a t ih =>
    rw [List.cons_union, ih (fun x hx => h x (List.mem_cons_of_mem a hx)),
      List.insert_of_mem (h a (List.mem_cons_self a t))]

lemma dedup_append_self (l : List String) : (l ++ l).dedup = l.dedup := by
  rw [List.dedup_append]
  exact union_eq_right_of_subset (fun x hx => List.mem_dedup.mpr hx)

/-- The similarity of a feature record (with deduplicated keywords,
non-empty keywords and non-empty options) against itself is 1. -/
lemma calcSim_self_of (f : QuestionFeatures)
    (hkd : f.keywords.dedup = f.keywords)
    (hkw : f.keywords ≠ []) (hopt : f.normalizedOptions ≠ []) :
    calculateQuestionSimilarity f f = 1 := by
  unfold calculateQuestionSimilarity
  dsimp only
  rw [calculateStringSimilarity_self]
  have hfiltk : f.keywords.filter (fun k => k ∈ f.keywords) = f.keywords :=
    List.filter_eq_self.mpr (fun a ha => by simp [ha])
  have hdas : (f.keywords ++ f.keywords).dedup = f.keywords := by
    rw [dedup_append_self, hkd]
  have hdos : (f.normalizedOptions ++ f.normalizedOptions).dedup =
      f.normalizedOptions.dedup := dedup_append_self _
  have hfilto : f.normalizedOptions.dedup.filter
      (fun o => o ∈ f.normalizedOptions.dedup) = f.normalizedOptions.dedup :=
    List.filter_eq_self.mpr (fun a ha => by simp [ha])
  rw [hfiltk, hdas, hdos, hfilto]
  have hk0 : 0 < f.keywords.length := length_pos_of_ne_nil hkw
  have ho0 : 0 < f.normalizedOptions.dedup.length := by
    apply length_pos_of_ne_nil
    intro hcon
    exact hopt ((List.dedup_eq_nil _).mp hcon)
  rw [if_pos hk0, if_pos ho0, if_pos (rfl : f.optionCount = f.optionCount)]
  have hkc : ((f.keywords.length : Nat) : ℚ) ≠ 0 :=
    Nat.cast_ne_zero.mpr (by omega)
  have hoc : ((f.normalizedOptions.dedup.length : Nat) : ℚ) ≠ 0 :=
    Nat.cast_ne_zero.mpr (by omega)
  rw [div_self hkc, div_self hoc]
  norm_num

/-- The similarity of a query against itself is 1 whenever keyword
extraction is non-trivial and options are present. -/
lemma calcSim_self_extract (qt : String) (options : List String)
    (hkw : (extractQuestionFeatures qt options).keywords ≠ [])
    (hopt : options ≠ []) :
    calculateQuestionSimilarity (extractQuestionFeatures qt options)
      (extractQuestionFeatures qt options) = 1 := by
  apply calcSim_self_of
  · exact extract_keywords_nodup qt options
  · exact hkw
  · intro h
    have hlen := congrArg List.length h
    rw [show (extractQuestionFeatures qt options).normalizedOptions =
      options.map normalizeQuestionText from rfl, List.length_map] at hlen
    exact hopt (List.length_eq_zero.mp hlen)

/-- `findSimilarQuestion` is the linear scan by `simScanStep`. -/
lemma findSimilarQuestion_eq_scan (mem : QuestionnaireMemory) (qt : String)
    (options : List String) (θ : ℚ) :
    findSimilarQuestion mem qt options θ =
      (mem.questions.foldl (simScanStep qt options θ) (none, 0)).1 := rfl

/-- Invariant of the best-match scan: a `none` result means no record beat
the (non-negative) threshold, and a `some` result is a stored record whose
score is the running value, beats the threshold, and dominates every
scanned record. -/
lemma simScan_invariant (qt : String) (options : List String) (θ : ℚ) :
    ∀ (l : List (String × QuestionRecord)) (acc : Option QuestionRecord × ℚ),
      (acc.1 = none → acc.2 = 0) →
      (∀ r, acc.1 = some r →
        acc.2 = questionSimilarityTo qt options r ∧ θ < acc.2) →
      (((l.foldl (simScanStep qt options θ) acc).1 = none →
          acc.1 = none ∧
          (0 ≤ θ → ∀ p ∈ l, questionSimilarityTo qt options p.2 ≤ θ)) ∧
        ∀ r, (l.foldl (simScanStep qt options θ) acc).1 = some r →
          (acc.1 = some r ∨ r ∈ l.map Prod.snd) ∧
          (l.foldl (simScanStep qt options θ) acc).2 =
            questionSimilarityTo qt options r ∧
          θ < (l.foldl (simScanStep qt options θ) acc).2 ∧
          acc.2 ≤ (l.foldl (simScanStep qt options θ) acc).2 ∧
          ∀ p ∈ l, questionSimilarityTo qt options p.2 ≤
            (l.foldl (simScanStep qt options θ) acc).2) := by
  intro l
  induction l with
  | nil =>
    intro acc h1 h2
    refine ⟨fun hnone => ⟨hnone, fun _ p hp => absurd hp (List.not_mem_nil p)⟩,
      ?_⟩
    intro r hr
    obtain ⟨he, hθr⟩ := h2 r hr
    exact ⟨Or.inl hr, he, hθr, le_refl _,
      fun p hp => absurd hp (List.not_mem_nil p)⟩
  | cons e t ih =>
    intro acc h1 h2
    rw [List.foldl_cons]
    by_cases hc : questionSimilarityTo qt options e.2 > θ ∧
        questionSimilarityTo qt options e.2 > acc.2
    · have hstep : simScanStep qt options θ acc e =
          (some e.2, questionSimilarityTo qt options e.2) := by
        unfold simScanStep; rw [if_pos hc]
      rw [hstep]
      obtain ⟨ihn, ihs⟩ := ih (some e.2, questionSimilarityTo qt options e.2)
        (fun h => by simp at h)
        (fun r h => by
          obtain rfl : e.2 = r := Option.some.inj h
          exact ⟨rfl, hc.1⟩)
      refine ⟨?_, ?_⟩
      · intro hnone
        exact absurd (ihn hnone).1 (by simp)
      · intro r hr
        obtain ⟨horig, hres2, hθ2, hmono, hbound⟩ := ihs r hr
        refine ⟨?_, hres2, hθ2, ?_, ?_⟩
        · rcases horig with h0 | hmem
          · have he2r : e.2 = r := Option.some.inj h0
            exact Or.inr (by
              rw [← he2r]
              exact List.mem_map_of_mem Prod.snd (List.mem_cons_self e t))
          · exact Or.inr (by
              rw [List.map_cons]
              exact List.mem_cons_of_mem e.2 hmem)
        · exact le_trans (le_of_lt hc.2) hmono
        · intro p hp
          rcases List.mem_cons.mp hp with hpe | hpt
          · rw [hpe]
            exact hmono
          · exact hbound p hpt
    · have hstep : simScanStep qt options θ acc e = acc := by
        unfold simScanStep; rw [if_neg hc]
      rw [hstep]
      obtain ⟨ihn, ihs⟩ := ih acc h1 h2
      rw [not_and_or] at hc
      push_neg at hc
      refine ⟨?_, ?_⟩
      · intro hnone
        obtain ⟨haccn, hbnd⟩ := ihn hnone
        refine ⟨haccn, fun hθ0 p hp => ?_⟩
        rcases List.mem_cons.mp hp with hpe | hpt
        · rcases hc with hle | hle2
          · rw [hpe]; exact hle
          · rw [hpe]
            calc questionSimilarityTo qt options e.2 ≤ acc.2 := hle2
              _ = 0 := h1 haccn
              _ ≤ θ := hθ0
        · exact hbnd hθ0 p hpt
      · intro r hr
        obtain ⟨horig, hres2, hθ2, hmono, hbound⟩ := ihs r hr
        refine ⟨?_, hres2, hθ2, hmono, ?_⟩
        · rcases horig with h0 | hmem
          · exact Or.inl h0
          · exact Or.inr (by
              rw [List.map_cons]
              exact List.mem_cons_of_mem e.2 hmem)
        · intro p hp
          rcases List.mem_cons.mp hp with hpe | hpt
          · rcases hc with hle | hle2
            · rw [hpe]; exact le_trans hle (le_of_lt hθ2)
            · rw [hpe]; exact le_trans hle2 hmono
          · exact hbound p hpt

/-- `getConsistentAnswerSuggestion` maps the best match through the
suggestion constructor. -/
lemma getConsistent_eq (mem : QuestionnaireMemory) (qt : String)
    (options : List String) :
    getConsistentAnswerSuggestion mem qt options =
      (findSimilarQuestion mem qt options (8/10)).map (fun r =>
        { suggestedAnswer := r.answer, suggestedAnswerText := r.answerText,
          referenceQuestionId := r.questionId,
          referenceQuestionText := r.questionText,
          similarityReason := "与第" ++
            toString ((mem.questionOrder.indexOf r.questionId : Nat) + 1) ++
            "题相似",
          confidence := r.confidence }) := by
  unfold getConsistentAnswerSuggestion
  cases findSimilarQuestion mem qt options (8/10) <;> rfl

/-- C3.  The score `findSimilarQuestion` computes against each stored
record is exactly the spec's weighted formula (0.4·textSim +
0.3·Jaccard(keywords) + 0.2·Jaccard(options) + 0.1·optionCount term with
textSim = 1 − editDistance/maxLen), and the scan returns a stored record
exactly when its score strictly exceeds the (non-negative) threshold and
dominates every stored record; otherwise it returns none, and then no
stored record exceeds the threshold. -/
theorem similarity_formula_and_best_match
    (mem : QuestionnaireMemory) (qt : String) (options : List String)
    (θ : ℚ) (hθ : 0 ≤ θ) :
    (∀ r : QuestionRecord,
      questionSimilarityTo qt options r =
        specSimilarityFormula (extractQuestionFeatures qt options)
          (extractQuestionFeatures r.questionText r.options)) ∧
    (∀ r, findSimilarQuestion mem qt options θ = some r →
      r ∈ mem.questions.map Prod.snd ∧
      θ < questionSimilarityTo qt options r ∧
      ∀ p ∈ mem.questions,
        questionSimilarityTo qt options p.2 ≤
          questionSimilarityTo qt options r) ∧
    (findSimilarQuestion mem qt options θ = none →
      ∀ p ∈ mem.questions, questionSimilarityTo qt options p.2 ≤ θ) := by
  obtain ⟨hn, hs⟩ := simScan_invariant qt options θ mem.questions (none, 0)
    (fun _ => rfl) (fun r h => by simp at h)
  refine ⟨?_, ?_, ?_⟩
  · intro r
    unfold questionSimilarityTo
    exact calcSim_eq_formula_of _ _ (extract_keywords_nodup qt options)
  · intro r hr
    have hr' : (mem.questions.foldl (simScanStep qt options θ)
        (none, 0)).1 = some r := by
      rw [← findSimilarQuestion_eq_scan]; exact hr
    obtain ⟨hm, he2, hlt, _, hmax⟩ := hs r hr'
    refine ⟨?_, ?_, ?_⟩
    · rcases hm with h0 | hmem
      · simp at h0
      · exact hmem
    · rw [← he2]; exact hlt
    · intro p hp
      have hple := hmax p hp
      rw [he2] at hple
      exact hple
  · intro hnone p hp
    have h' : (mem.questions.foldl (simScanStep qt options θ)
        (none, 0)).1 = none := by
      rw [← findSimilarQuestion_eq_scan]; exact hnone
    exact (hn h').2 hθ p hp

/-- C3 witness: at threshold 8/10 ≥ 0 and the one-record memory, the
none-case of the best-match characterization instantiates. -/
theorem similarity_formula_and_best_match_witness :
    (0 : ℚ) ≤ 8/10 ∧
    (findSimilarQuestion memWithOneRecord "hello" [] (8/10) = none →
      ∀ p ∈ memWithOneRecord.questions,
        questionSimilarityTo "hello" [] p.2 ≤ 8/10) :=
  ⟨by norm_num,
    (similarity_formula_and_best_match memWithOneRecord "hello" [] (8/10)
      (by norm_num)).2.2⟩

/-- C8 counterexample.  The question `"Hi?"` with no options is identical
to itself, yet its self-similarity is 1/2, not 1: the Jaccard guards
return 0 for the empty keyword and option sets instead of treating equal
empty sets as fully similar. -/
theorem identical_similarity_not_one :
    calculateQuestionSimilarity (extractQuestionFeatures "Hi?" [])
        (extractQuestionFeatures "Hi?" []) = 1/2 ∧ ((1 : ℚ)/2) ≠ 1 := by
  constructor
  · show calculateQuestionSimilarity
      { normalizedText := "hi", normalizedOptions := [], keywords := [],
        optionKeywords := [], textLength := 2, optionCount := 0 }
      { normalizedText := "hi", normalizedOptions := [], keywords := [],
        optionKeywords := [], textLength := 2, optionCount := 0 } = 1/2
    unfold calculateQuestionSimilarity
    dsimp only
    rw [calculateStringSimilarity_self]
    norm_num [List.dedup_nil]
  · norm_num

/-- C8 (amended).  Every suggestion the lookup returns comes from a stored
record whose score strictly exceeds the 0.8 threshold (never at or below
it), and carries that record's answer; and for a query whose extracted
keyword list and option list are non-empty, a syntactically identical
record scores exactly 1, so an identical stored record guarantees some
suggestion is returned.  (Without keywords or options, identical questions
score only 1/2.) -/
theorem answer_consistency_amended
    (mem : QuestionnaireMemory) (qt : String) (options : List String) :
    (∀ s, getConsistentAnswerSuggestion mem qt options = some s →
      ∃ r, findSimilarQuestion mem qt options (8/10) = some r ∧
        r ∈ mem.questions.map Prod.snd ∧
        8/10 < questionSimilarityTo qt options r ∧
        s.suggestedAnswer = r.answer ∧
        s.suggestedAnswerText = r.answerText) ∧
    ((extractQuestionFeatures qt options).keywords ≠ [] → options ≠ [] →
      (∀ r : QuestionRecord, r.questionText = qt → r.options = options →
        questionSimilarityTo qt options r = 1) ∧
      ((∃ p ∈ mem.questions,
          p.2.questionText = qt ∧ p.2.options = options) →
        ∃ s, getConsistentAnswerSuggestion mem qt options = some s)) := by
  obtain ⟨hn, hs⟩ := simScan_invariant qt options (8/10) mem.questions
    (none, 0) (fun _ => rfl) (fun r h => by simp at h)
  constructor
  · intro s hsome
    rw [getConsistent_eq] at hsome
    cases hfs : findSimilarQuestion mem qt options (8/10) with
    | none => rw [hfs] at hsome; simp at hsome
    | some r =>
      rw [hfs] at hsome
      have hinj := Option.some.inj hsome
      have hr' : (mem.questions.foldl (simScanStep qt options (8/10))
          (none, 0)).1 = some r := by
        rw [← findSimilarQuestion_eq_scan]; exact hfs
      obtain ⟨hm, he2, hlt, _, _⟩ := hs r hr'
      refine ⟨r, rfl, ?_, ?_, ?_, ?_⟩
      · rcases hm with h0 | hmem
        · simp at h0
        · exact hmem
      · rw [← he2]; exact hlt
      · rw [← hinj]
      · rw [← hinj]
  · intro hkw hopt
    have hone : ∀ r : QuestionRecord, r.questionText = qt →
        r.options = options → questionSimilarityTo qt options r = 1 := by
      intro r hrt hro
      unfold questionSimilarityTo
      rw [hrt, hro]
      exact calcSim_self_extract qt options hkw hopt
    refine ⟨hone, ?_⟩
    rintro ⟨p, hp, hpt, hpo⟩
    cases hfs : findSimilarQuestion mem qt options (8/10) with
    | some r =>
      exact ⟨_, by rw [getConsistent_eq, hfs]; rfl⟩
    | none =>
      exfalso
      have h' : (mem.questions.foldl (simScanStep qt options (8/10))
          (none, 0)).1 = none := by
        rw [← findSimilarQuestion_eq_scan]; exact hfs
      have hall := (hn h').2 (by norm_num) p hp
      rw [hone p.2 hpt hpo] at hall
      norm_num at hall

/-- C8 witness: a concrete English question with two options has non-empty
keywords, and the identical stored record scores exactly 1 and yields a
suggestion. -/
theorem answer_consistency_amended_witness :
    questionSimilarityTo "Do you like coffee?" ["Yes please", "No thanks"]
        coffeeRecord = 1 ∧
    ∃ s, getConsistentAnswerSuggestion memWithCoffee "Do you like coffee?"
        ["Yes please", "No thanks"] = some s := by
  have hkw : (extractQuestionFeatures "Do you like coffee?"
      ["Yes please", "No thanks"]).keywords ≠ [] := by decide
  have hmain := (answer_consistency_amended memWithCoffee
    "Do you like coffee?" ["Yes please", "No thanks"]).2 hkw (by decide)
  refine ⟨hmain.1 coffeeRecord rfl rfl, hmain.2 ⟨("cafe", coffeeRecord),
    List.mem_singleton.mpr rfl, rfl, rfl⟩⟩

/-! ### C9: error handling of the similarity lookups -/

/-- C9 counterexample.  An exception thrown inside the similarity
computation of the digital-person suggestion lookup propagates to the
caller instead of degrading to "no suggestion". -/
theorem suggestion_lookup_error_counterexample :
    getConsistentAnswerSuggestionE failingSimilarity memWithOneRecord
        "你喜欢咖啡吗？" ["是", "否"] =
      Except.error "TypeError: Cannot read properties of null" := rfl

/-- C9 (amended).  The generic `MemoryManager.findSimilarMemory` read path
does catch internal similarity errors and returns a plain value, but the
Answer Consistency Memory's own suggestion lookup
(`getConsistentAnswerSuggestion` via `findSimilarQuestion`) has no
handler: as soon as the stored-question list is non-empty, a throwing
similarity primitive makes the whole lookup throw. -/
theorem memory_error_propagation
    (simTE : String → String → Except String ℚ)
    (cache : List MemoryRecord) (dpid qtext e : String)
    (mem : QuestionnaireMemory) (qt : String) (options : List String)
    (hne : mem.questions ≠ []) :
    (∃ v, findSimilarMemory simTE cache dpid qtext = Except.ok v) ∧
    getConsistentAnswerSuggestionE (fun _ _ => Except.error e) mem qt
        options = Except.error e := by
  constructor
  · unfold findSimilarMemory
    cases hb : findSimilarMemoryBody simTE cache dpid qtext with
    | ok r => exact ⟨r, rfl⟩
    | error msg => exact ⟨none, rfl⟩
  · cases hq : mem.questions with
    | nil => exact absurd hq hne
    | cons a t =>
      unfold getConsistentAnswerSuggestionE findSimilarQuestionE
      rw [hq]
      rfl

/-- C9 witness: the caught path holds on an empty cache, and the
propagating path on the one-record memory. -/
theorem memory_error_propagation_witness :
    (∃ v, findSimilarMemory (fun _ _ => Except.error "boom") []
        "p1" "q" = Except.ok v) ∧
    getConsistentAnswerSuggestionE (fun _ _ => Except.error "boom")
        memWithCoffee "x" [] = Except.error "boom" :=
  memory_error_propagation (fun _ _ => Except.error "boom") [] "p1" "q"
    "boom" memWithCoffee "x" [] (List.cons_ne_nil _ _)

/-! ### C4: cleanup report and idempotence -/

set_option maxHeartbeats 4000000 in
/-- The state left by one full cleanup pass is `postCleanupState`,
whatever the environment answers. -/
lemma cleanup_post_state (env : ExtCall → Bool) (sd : SessionResourceData) :
    (executeComprehensiveCleanup env sd).2.1 = postCleanupState sd := by
  rcases sd with ⟨sid, pid, pri, st, se, bi, apm, pm, mm, dpm, mi, msf, ar⟩
  cases pri <;> cases st <;> cases se <;> cases bi <;> cases mm <;>
    cases dpm <;> cases mi <;> cases ar <;> rfl

/-- A cleanup pass over an already-cleaned state still re-runs the
AdsPower browser teardown and the proxy release, because the manager
references and identifiers guarding those phases are never cleared. -/
lemma cleanup_trace_on_cleaned (env : ExtCall → Bool)
    (sd : SessionResourceData) :
    (executeComprehensiveCleanup env (postCleanupState sd)).2.2 =
      (if sd.adsPowerManager.isSome ∧ sd.profileId.isSome then
        [ExtCall.adsCleanupBrowser] else []) ++
      (if sd.proxyManager.isSome ∧ sd.sessionId ≠ "" then
        [ExtCall.proxyRelease] else []) := by
  rcases sd with ⟨sid, pid, pri, st, se, bi, apm, pm, mm, dpm, mi, msf, ar⟩
  simp [executeComprehensiveCleanup, postCleanupState, phase1StopMonitoring,
    phase2CleanupStagehand, phase3CleanupMemory, phase4CleanupAdsPower,
    phase5CleanupProxy, phase6CleanupThreads]

/-- C4 (amended).  Cleanup never throws: both the first and the second
pass return `success:true` with no errors, and the second pass leaves the
state unchanged; but the second pass is *not* free of side effects — it
re-invokes the AdsPower browser teardown and the proxy release whenever
the corresponding manager references and identifiers are present, because
those guards are never cleared. -/
theorem cleanup_idempotent_amended (env1 env2 : ExtCall → Bool)
    (sd : SessionResourceData) :
    (executeComprehensiveCleanup env1 sd).1.success = true ∧
    (executeComprehensiveCleanup env1 sd).1.errors = [] ∧
    (executeComprehensiveCleanup env2
        (executeComprehensiveCleanup env1 sd).2.1).1.success = true ∧
    (executeComprehensiveCleanup env2
        (executeComprehensiveCleanup env1 sd).2.1).1.errors = [] ∧
    (executeComprehensiveCleanup env2
        (executeComprehensiveCleanup env1 sd).2.1).2.1 =
      (executeComprehensiveCleanup env1 sd).2.1 ∧
    (executeComprehensiveCleanup env2
        (executeComprehensiveCleanup env1 sd).2.1).2.2 =
      (if sd.adsPowerManager.isSome ∧ sd.profileId.isSome then
        [ExtCall.adsCleanupBrowser] else []) ++
      (if sd.proxyManager.isSome ∧ sd.sessionId ≠ "" then
        [ExtCall.proxyRelease] else []) := by
  refine ⟨rfl, rfl, rfl, rfl, ?_, ?_⟩
  · rw [cleanup_post_state env1 sd, cleanup_post_state env2]
    rcases sd with ⟨sid, pid, pri, st, se, bi, apm, pm, mm, dpm, mi, msf, ar⟩
    rfl
  · rw [cleanup_post_state env1 sd]
    exact cleanup_trace_on_cleaned env2 sd

/-- C4 counterexample.  On a fully populated resource set, the second
cleanup pass still performs two external calls (AdsPower teardown and
proxy release), so it is not side-effect free. -/
theorem cleanup_not_idempotent_counterexample :
    (executeComprehensiveCleanup allCallsSucceed
        (executeComprehensiveCleanup allCallsSucceed sdFull).2.1).2.2 =
      [ExtCall.adsCleanupBrowser, ExtCall.proxyRelease] ∧
    (executeComprehensiveCleanup allCallsSucceed
        (executeComprehensiveCleanup allCallsSucceed sdFull).2.1).2.2 ≠
      ([] : List ExtCall) := by
  constructor <;> decide

/-! ### C5: window monitor -/

/-- A session whose poll timer is no longer scheduled is never checked
again: no further cleanup invocations and no status writes. -/
lemma monRun_inactive (env : ExtCall → Bool) (config : MonitoringConfig)
    (s : MonitoringSession) (h : s.timerActive = false) :
    ∀ resps : List AdsStatusResponse, monRun env config s resps = (s, 0, []) := by
  intro resps
  induction resps with
  | nil => rfl
  | cons a t ih => simp [monRun, h, ih]

/-- After three failed checks the session has a stopped timer, is out of
the active set, and carries the post-cleanup status. -/
lemma sessionAfterTripleTimeout_flags (env : ExtCall → Bool) (sid : String)
    (sd : SessionResourceData) :
    (sessionAfterTripleTimeout env sid sd).timerActive = false ∧
    (sessionAfterTripleTimeout env sid sd).inActiveSet = false ∧
    (sessionAfterTripleTimeout env sid sd).status =
      MonitoringStatus.cleanupCompleted :=
  ⟨rfl, rfl, rfl⟩

/-- The triple-timeout run reduces to its first three (deterministic)
steps followed by a run from the post-cleanup session. -/
lemma tripleTimeoutRun_eq (env : ExtCall → Bool) (sid : String)
    (sd : SessionResourceData) (rest : List AdsStatusResponse) :
    tripleTimeoutRun env sid sd rest =
      ((monRun env defaultMonitoringConfig
          (sessionAfterTripleTimeout env sid sd) rest).1,
        0 + (0 + (1 + (monRun env defaultMonitoringConfig
          (sessionAfterTripleTimeout env sid sd) rest).2.1)),
        MonitoringStatus.windowClosed ::
          MonitoringStatus.cleanupInProgress ::
          MonitoringStatus.cleanupCompleted ::
          (monRun env defaultMonitoringConfig
            (sessionAfterTripleTimeout env sid sd) rest).2.2) := rfl

/-- C5.  A successful active check resets the error counter to zero with
no cleanup and no status write; and from a fresh session, three
consecutive rethrown timeout failures (maxRetries = 3) drive the session
through WindowClosed into cleanup exactly once — after which, whatever
responses still arrive, the cleanup count stays 1 and the session stays
out of the active set with its timer stopped. -/
theorem window_monitor_reset_and_single_cleanup :
    (∀ (env : ExtCall → Bool) (cfg : MonitoringConfig)
        (s : MonitoringSession) (resp : AdsStatusResponse),
      s.stopFlag = false → s.sessionData.monitorStopFlag = false →
      checkAdsPowerWindowStatus resp = Except.ok false →
      performWindowCheck env cfg s resp =
        ({ s with checkCount := s.checkCount + 1, errorCount := 0 }, 0, [])) ∧
    (∀ (env : ExtCall → Bool) (sid : String) (sd : SessionResourceData)
        (rest : List AdsStatusResponse),
      (tripleTimeoutRun env sid sd rest).2.1 = 1 ∧
      (tripleTimeoutRun env sid sd rest).2.2 =
        [MonitoringStatus.windowClosed, MonitoringStatus.cleanupInProgress,
          MonitoringStatus.cleanupCompleted] ∧
      (tripleTimeoutRun env sid sd rest).1.inActiveSet = false ∧
      (tripleTimeoutRun env sid sd rest).1.timerActive = false ∧
      (tripleTimeoutRun env sid sd rest).1.status =
        MonitoringStatus.cleanupCompleted) := by
  constructor
  · intro env cfg s resp hstop hm hchk
    unfold performWindowCheck
    simp only [hstop, hm, hchk]
    rfl
  · intro env sid sd rest
    obtain ⟨hta, hact, hstat⟩ := sessionAfterTripleTimeout_flags env sid sd
    have htail := monRun_inactive env defaultMonitoringConfig
      (sessionAfterTripleTimeout env sid sd) hta rest
    rw [tripleTimeoutRun_eq, htail]
    exact ⟨rfl, rfl, hact, hta, hstat⟩

/-- C5 witness: an Active response on a fresh session instantiates the
reset clause. -/
theorem window_monitor_reset_witness :
    performWindowCheck allCallsSucceed defaultMonitoringConfig
        (startMonitoring "s" sdFull)
        (AdsStatusResponse.okJson 0 (some "Active")) =
      ({ startMonitoring "s" sdFull with
          checkCount := (startMonitoring "s" sdFull).checkCount + 1,
          errorCount := 0 }, 0, []) :=
  window_monitor_reset_and_single_cleanup.1 allCallsSucceed
    defaultMonitoringConfig (startMonitoring "s" sdFull)
    (AdsStatusResponse.okJson 0 (some "Active")) rfl rfl rfl

end QSys
